import Mathlib

/-!
# SD card browser firmware: block device adapter and report builder

A shallow embedding of `Firmware/Middlewares/Third_Party/FatFs/src/diskio.c`
(the glue between FatFs and the board support driver of the SD card) and of
`Firmware/src/sd_file_browser.c` (the routine that renders card and file
system facts into the 4096 byte text buffer `info_buffer`).

Conventions of the embedding.

* A C `char` is a `Char`, a C string is the list of characters before its
  terminating NUL (`Text`).
* Machine integers are natural numbers; a cast or a store that narrows is an
  explicit `% 2 ^ w`.
* `info_buffer` is kept as the sequence of strings stored into it (the first
  `snprintf`, then one string for every `strcat`); the C string it holds is
  the concatenation of that sequence, and `strlen` is the length of that
  concatenation. The embedding does not cut the text at 4096 bytes, so that
  writes beyond the array are visible as a length above the capacity.
* Code outside the two files (the board support driver, the FatFs library)
  is a parameter: the driver is a state machine `Bsp`, the file system is the
  record `FatFs` of the answers it gives during one report build.
-/

namespace EIT

/-! ## Text and formatting -/

/-- A C string: the characters before the terminating NUL. -/
abbrev Text := List Char

/-- The terminator of a C string. -/
def NUL : Char := Char.ofNat 0

/-- The C string stored in a character array: everything before the first NUL. -/
def cstr (s : Text) : Text := s.takeWhile (fun c => c != NUL)

/-- The text `snprintf(dst, size, ...)` stores in `dst`: at most `size - 1`
characters of the formatted output. -/
def snprintf (size : Nat) (formatted : Text) : Text := formatted.take (size - 1)

/-- Conversion `%lu`; `unsigned long` has 32 bits on the target. -/
def fmt_lu (v : Nat) : Text := Nat.toDigits 10 (v % 2 ^ 32)

/-- Conversion `%d` of an `int` that is not negative (a FatFs result code or
an entry counter, which the buffer limit keeps far below `2 ^ 31`). -/
def fmt_d (v : Nat) : Text := Nat.toDigits 10 v

/-- Cast to `uint32_t`. -/
def u32 (v : Nat) : Nat := v % 2 ^ 32

/-- Cast to `uint64_t`. -/
def u64 (v : Nat) : Nat := v % 2 ^ 64

/-! ## Constants of headers that are not part of the sources -/

/-- Modelled from the spec: `diskio.h` is absent; the result vocabulary of
the adapter (sections 4.1 and 7: success, generic I/O error, write protected,
not ready, parameter error) as the FatFs enumeration `DRESULT`. -/
inductive DRESULT where
  | RES_OK
  | RES_ERROR
  | RES_WRPRT
  | RES_NOTRDY
  | RES_PARERR
deriving DecidableEq, Repr

/-- Modelled from the spec: `diskio.h` is absent; the status flag
NOT_INITIALIZED of section 4.1, with the bit FatFs gives it. -/
def STA_NOINIT : Nat := 0x01

/-- Modelled from the spec: `diskio.h` is absent; the status flag NO_DISK of
section 4.1, with the bit FatFs gives it. -/
def STA_NODISK : Nat := 0x02

/-- Modelled from the spec: `diskio.h` is absent; the command SYNC of
section 4.1, with the code FatFs gives it. -/
def CTRL_SYNC : Nat := 0

/-- Modelled from the spec: `diskio.h` is absent; the command
GET_SECTOR_COUNT of section 4.1, with the code FatFs gives it. -/
def GET_SECTOR_COUNT : Nat := 1

/-- Modelled from the spec: `diskio.h` is absent; the command
GET_SECTOR_SIZE of section 4.1, with the code FatFs gives it. -/
def GET_SECTOR_SIZE : Nat := 2

/-- Modelled from the spec: `diskio.h` is absent; the command
GET_ERASE_BLOCK_SIZE of section 4.1, with the code FatFs gives it. -/
def GET_BLOCK_SIZE : Nat := 3

/-- Modelled from the spec: `stm32f769i_discovery_sd.h` is absent; the
success status of the board support driver. -/
def MSD_OK : Nat := 0

/-- Modelled from the spec: `stm32f769i_discovery_sd.h` is absent; the
answer of the presence detection for a detected card. -/
def SD_PRESENT : Nat := 1

/-- Modelled from the spec: the HAL header is absent; card type
standard-capacity of section 4.2. -/
def CARD_SDSC : Nat := 0

/-- Modelled from the spec: the HAL header is absent; card type
high/extended-capacity of section 4.2. -/
def CARD_SDHC_SDXC : Nat := 1

/-- Modelled from the spec: the HAL header is absent; card type secured of
section 4.2. -/
def CARD_SECURED : Nat := 3

/-- Modelled from the spec: `ff.h` is absent; the success code of the file
system calls. -/
def FR_OK : Nat := 0

/-- Modelled from the spec: `ff.h` is absent; the attribute bit that
classifies a directory entry as a directory (section 4.2, step 4). -/
def AM_DIR : Nat := 0x10

/-- Physical drive number of the SD card (`#define DEV_SD 0`). -/
def DEV_SD : Nat := 0

/-! ## The board support driver, a parameter of the adapter -/

/-- The fields of `HAL_SD_CardInfoTypeDef` the code reads, each a `uint32_t`. -/
structure HAL_SD_CardInfoTypeDef where
  CardType : Nat
  CardVersion : Nat
  LogBlockNbr : Nat
  LogBlockSize : Nat
deriving DecidableEq, Repr

/-- A card info whose fields are values of `uint32_t`. -/
def HAL_SD_CardInfoTypeDef.wf (c : HAL_SD_CardInfoTypeDef) : Prop :=
  c.CardType < 2 ^ 32 ∧ c.CardVersion < 2 ^ 32 ∧ c.LogBlockNbr < 2 ^ 32 ∧ c.LogBlockSize < 2 ^ 32

/-- A call of the adapter into the board support driver, with the arguments
it passes (block address, number of blocks, timeout). -/
inductive BspCall where
  | IsDetected
  | Init
  | ReadBlocks (ReadAddr NumOfBlocks Timeout : Nat)
  | WriteBlocks (pData : List Nat) (WriteAddr NumOfBlocks Timeout : Nat)
  | GetCardInfo
deriving DecidableEq, Repr

/-- The board support driver of the SD card. Its code is outside the
sources, so it is a parameter: a state machine over device states `σ`.
Every function returns its C result together with the next device state;
`BSP_SD_ReadBlocks` also returns the new contents of the data buffer. The
arguments after the state are those of the C function, in its order
(`pData`, block address, number of blocks, timeout). -/
structure Bsp (σ : Type) where
  BSP_SD_IsDetected : σ → Nat × σ
  BSP_SD_Init : σ → Nat × σ
  BSP_SD_ReadBlocks : σ → List Nat → Nat → Nat → Nat → Nat × List Nat × σ
  BSP_SD_WriteBlocks : σ → List Nat → Nat → Nat → Nat → Nat × σ
  BSP_SD_GetCardInfo : σ → HAL_SD_CardInfoTypeDef × σ

/-- The device as the adapter sees it: the state of the driver and the log
of the driver calls made so far. -/
structure Drv (σ : Type) where
  dev : σ
  calls : List BspCall

/-! ## diskio.c -/

/-- `disk_status`. -/
def disk_status {σ : Type} (bsp : Bsp σ) (pdrv : Nat) (d : Drv σ) : Nat × Drv σ :=
  let stat := 0
  if pdrv = DEV_SD then
    let a := bsp.BSP_SD_IsDetected d.dev
    let d1 : Drv σ := { dev := a.2, calls := d.calls ++ [BspCall.IsDetected] }
    let stat := if a.1 ≠ SD_PRESENT then STA_NODISK else stat
    (stat, d1)
  else
    (STA_NOINIT, d)

/-- `disk_initialize`. -/
def disk_initialize {σ : Type} (bsp : Bsp σ) (pdrv : Nat) (d : Drv σ) : Nat × Drv σ :=
  let stat := 0
  if pdrv = DEV_SD then
    let a := bsp.BSP_SD_Init d.dev
    let d1 : Drv σ := { dev := a.2, calls := d.calls ++ [BspCall.Init] }
    let stat := if a.1 ≠ MSD_OK then STA_NOINIT else stat
    (stat, d1)
  else
    (STA_NOINIT, d)

/-- The outcome of `disk_read`: the result code, the contents of the data
buffer afterwards, and the device. -/
structure ReadOutcome (σ : Type) where
  res : DRESULT
  buff : List Nat
  drv : Drv σ

/-- `disk_read`. The start sector is an `LBA_t`; the cast `(uint32_t)sector`
keeps its low 32 bits. -/
def disk_read {σ : Type} (bsp : Bsp σ) (pdrv : Nat) (buff : List Nat) (sector count : Nat)
    (d : Drv σ) : ReadOutcome σ :=
  let res := DRESULT.RES_ERROR
  if pdrv = DEV_SD then
    let a := bsp.BSP_SD_ReadBlocks d.dev buff (u32 sector) count 10000
    let d1 : Drv σ :=
      { dev := a.2.2, calls := d.calls ++ [BspCall.ReadBlocks (u32 sector) count 10000] }
    let res := if a.1 = MSD_OK then DRESULT.RES_OK else res
    { res := res, buff := a.2.1, drv := d1 }
  else
    { res := DRESULT.RES_PARERR, buff := buff, drv := d }

/-- `disk_write` (present when `FF_FS_READONLY == 0`). -/
def disk_write {σ : Type} (bsp : Bsp σ) (pdrv : Nat) (buff : List Nat) (sector count : Nat)
    (d : Drv σ) : DRESULT × Drv σ :=
  let res := DRESULT.RES_ERROR
  if pdrv = DEV_SD then
    let a := bsp.BSP_SD_WriteBlocks d.dev buff (u32 sector) count 10000
    let d1 : Drv σ :=
      { dev := a.2, calls := d.calls ++ [BspCall.WriteBlocks buff (u32 sector) count 10000] }
    let res := if a.1 = MSD_OK then DRESULT.RES_OK else res
    (res, d1)
  else
    (DRESULT.RES_PARERR, d)

/-- A store through the `void *buff` argument of `disk_ioctl`, by the type of
the lvalue: `*(LBA_t*)buff`, `*(WORD*)buff` (16 bits), `*(DWORD*)buff`. -/
inductive IoctlStore where
  | lba (v : Nat)
  | word (v : Nat)
  | dword (v : Nat)
deriving DecidableEq, Repr

/-- The outcome of `disk_ioctl`: the result code, the store made through
`buff` (`none` when the buffer is not written), and the device. -/
structure IoctlOutcome (σ : Type) where
  res : DRESULT
  store : Option IoctlStore
  drv : Drv σ

/-- `disk_ioctl`. -/
def disk_ioctl {σ : Type} (bsp : Bsp σ) (pdrv cmd : Nat) (d : Drv σ) : IoctlOutcome σ :=
  if pdrv = DEV_SD then
    if cmd = CTRL_SYNC then
      { res := DRESULT.RES_OK, store := none, drv := d }
    else if cmd = GET_SECTOR_COUNT then
      let a := bsp.BSP_SD_GetCardInfo d.dev
      let d1 : Drv σ := { dev := a.2, calls := d.calls ++ [BspCall.GetCardInfo] }
      { res := DRESULT.RES_OK, store := some (IoctlStore.lba a.1.LogBlockNbr), drv := d1 }
    else if cmd = GET_SECTOR_SIZE then
      let a := bsp.BSP_SD_GetCardInfo d.dev
      let d1 : Drv σ := { dev := a.2, calls := d.calls ++ [BspCall.GetCardInfo] }
      { res := DRESULT.RES_OK, store := some (IoctlStore.word (a.1.LogBlockSize % 2 ^ 16)),
        drv := d1 }
    else if cmd = GET_BLOCK_SIZE then
      { res := DRESULT.RES_OK, store := some (IoctlStore.dword 1), drv := d }
    else
      { res := DRESULT.RES_PARERR, store := none, drv := d }
  else
    { res := DRESULT.RES_PARERR, store := none, drv := d }

/-! ## sd_file_browser.c -/

/-- The FatFs calls made by the report builder. -/
inductive FsCall where
  | f_getlabel
  | f_getfree
  | f_opendir
  | f_readdir
  | f_closedir
deriving DecidableEq, Repr

/-- The fields of `FILINFO` the code reads: size (an `FSIZE_t`, printed with
`%lu` as a 32 bit value), attribute byte, and name (the character array
`fname`, read as a C string). -/
structure FILINFO where
  fsize : Nat
  fattrib : Nat
  fname : Text
deriving DecidableEq, Repr

/-- The FatFs library during one report build. Its code is outside the
sources, so it is a parameter: the result code of every call and the values
it hands back. `readdir` lists the answers of the successive `f_readdir`
calls (result code and entry); once the list is used up `f_readdir` reports
the end of the directory (`FR_OK` and an empty name). -/
structure FatFs where
  getlabel_res : Nat
  label : Text
  getfree_res : Nat
  fre_clust : Nat
  n_fatent : Nat
  csize : Nat
  opendir_res : Nat
  readdir : List (Nat × FILINFO)

/-- The state of a report build: `info_buffer` as the sequence of strings
stored into it, the log of FatFs calls, and a ghost flag set where the loop
of `list_files` is left because the buffer is nearly full. -/
structure Report where
  info_buffer : List Text
  fs_calls : List FsCall
  truncated : Bool
deriving DecidableEq, Repr

/-- The C string held by the buffer. -/
def Report.text (r : Report) : Text := r.info_buffer.flatten

/-- `strlen(info_buffer)`. -/
def strlen (info_buffer : List Text) : Nat := info_buffer.flatten.length

/-- `strcat(info_buffer, s)`. -/
def strcat (r : Report) (s : Text) : Report :=
  { r with info_buffer := r.info_buffer ++ [s] }

/-- `memset(info_buffer, 0, sizeof(info_buffer))`: the buffer holds the empty
string. -/
def memset (r : Report) : Report :=
  { r with info_buffer := [] }

/-- `snprintf(info_buffer, size, ...)`: the formatted text replaces the string
in the buffer. -/
def snprintf_buffer (r : Report) (size : Nat) (formatted : Text) : Report :=
  { r with info_buffer := [snprintf size formatted] }

/-- Record a call into FatFs. -/
def fs_call (r : Report) (c : FsCall) : Report :=
  { r with fs_calls := r.fs_calls ++ [c] }

/-- The text `"\n... (truncated, buffer full)\n"`. -/
def NOTICE : Text := "\n... (truncated, buffer full)\n".toList

/-- The loop `for(;;)` of `list_files`, by recursion on the answers that
`f_readdir` still has to give. Returns the report state and the two
counters at the exit of the loop. -/
def list_files_loop (r : Report) (file_count dir_count : Nat) :
    List (Nat × FILINFO) → Report × Nat × Nat
  | [] => (fs_call r FsCall.f_readdir, file_count, dir_count)
  | a :: rest =>
    let r := fs_call r FsCall.f_readdir
    if a.1 ≠ FR_OK ∨ a.2.fname.headD NUL = NUL then
      (r, file_count, dir_count)
    else
      let s : Report × Nat × Nat :=
        if a.2.fattrib &&& AM_DIR ≠ 0 then
          (strcat r (snprintf 256 ("[DIR]  ".toList ++ cstr a.2.fname ++ "\n".toList)),
            file_count, dir_count + 1)
        else
          (strcat r (snprintf 256 ("       ".toList ++ cstr a.2.fname ++ " (".toList ++
              fmt_lu a.2.fsize ++ " bytes)\n".toList)),
            file_count + 1, dir_count)
      if strlen s.1.info_buffer > 4096 - 300 then
        ({ strcat s.1 NOTICE with truncated := true }, s.2.1, s.2.2)
      else
        list_files_loop s.1 s.2.1 s.2.2 rest

/-- `list_files`. -/
def list_files (fs_mounted : Nat) (fs : FatFs) (r : Report) : Report :=
  if fs_mounted = 0 then
    let r := strcat r "\n\nFILE SYSTEM NOT MOUNTED\n".toList
    let r := strcat r "=======================\n".toList
    let r := strcat r "Unable to read file system.\n".toList
    strcat r "Card may not be formatted with FAT.\n".toList
  else
    let r := strcat r "\n\nFILES AND DIRECTORIES\n".toList
    let r := strcat r "=====================\n\n".toList
    let r := fs_call r FsCall.f_opendir
    if fs.opendir_res ≠ FR_OK then
      strcat r (snprintf 256 ("Error opening directory: ".toList ++ fmt_d fs.opendir_res ++
        "\n".toList))
    else
      let w := list_files_loop r 0 0 fs.readdir
      let r := fs_call w.1 FsCall.f_closedir
      strcat r (snprintf 256 ("\nTotal: ".toList ++ fmt_d w.2.1 ++ " files, ".toList ++
        fmt_d w.2.2 ++ " directories\n".toList))

/-- `get_sd_card_info`. The argument `info_buffer` is what the buffer holds
when the function is entered. -/
def get_sd_card_info (info_buffer : List Text) (card_info : HAL_SD_CardInfoTypeDef)
    (fs_mounted : Nat) (fs : FatFs) : Report :=
  let r : Report := { info_buffer := info_buffer, fs_calls := [], truncated := false }
  let r := memset r
  let capacity_mb :=
    u32 (u64 (u64 card_info.LogBlockNbr * u64 card_info.LogBlockSize) / (1024 * 1024))
  let r := snprintf_buffer r 4096
    "SD CARD INFORMATION\n===================\n\nCard Type: ".toList
  let r :=
    if card_info.CardType = CARD_SDSC then strcat r "SDSC (Standard Capacity)\n".toList
    else if card_info.CardType = CARD_SDHC_SDXC then
      strcat r "SDHC/SDXC (High/Extended Capacity)\n".toList
    else if card_info.CardType = CARD_SECURED then strcat r "Secured Card\n".toList
    else strcat r "Unknown\n".toList
  let r := strcat r (snprintf 128 ("Card Version: ".toList ++
    fmt_lu ((card_info.CardVersion >>> 8) &&& 0xFF) ++ ".".toList ++
    fmt_lu (card_info.CardVersion &&& 0xFF) ++ "\n".toList))
  let r := strcat r (snprintf 128 ("\nCapacity: ".toList ++ fmt_lu capacity_mb ++
    " MB\n".toList))
  let r := strcat r (snprintf 128 ("Block Size: ".toList ++ fmt_lu card_info.LogBlockSize ++
    " bytes\n".toList))
  let r := strcat r (snprintf 128 ("Block Count: ".toList ++ fmt_lu card_info.LogBlockNbr ++
    "\n".toList))
  let r :=
    if fs_mounted ≠ 0 then
      let r := strcat r "\nFILE SYSTEM\n".toList
      let r := strcat r "===========\n".toList
      let r := fs_call r FsCall.f_getlabel
      let r :=
        if fs.getlabel_res = FR_OK then
          if (cstr fs.label).isEmpty then strcat r "Label: (none)\n".toList
          else strcat r (snprintf 128 ("Label: ".toList ++ cstr fs.label ++ "\n".toList))
        else r
      let r := fs_call r FsCall.f_getfree
      if fs.getfree_res = FR_OK then
        let tot_sect := u32 (u32 (fs.n_fatent + 2 ^ 32 - 2) * fs.csize)
        let fre_sect := u32 (fs.fre_clust * fs.csize)
        let r := strcat r (snprintf 128 ("Total: ".toList ++ fmt_lu (tot_sect / 2048) ++
          " MB\n".toList))
        strcat r (snprintf 128 ("Free: ".toList ++ fmt_lu (fre_sect / 2048) ++
          " MB\n".toList))
      else r
    else r
  list_files fs_mounted fs r

/-- The state changed by `sd_card_init`: the flag `fs_mounted`. The answers
of `BSP_SD_Init` and of `f_mount` are arguments; `f_mount` is consulted
only when it is called. Returns the C result (`-1` or `0`), the flag, and
whether `f_mount` was called. -/
def sd_card_init (fs_mounted : Nat) (sd_state mount_res : Nat) : Int × Nat × Bool :=
  if sd_state ≠ MSD_OK then
    (-1, fs_mounted, false)
  else
    let fs_mounted := if mount_res = FR_OK then 1 else 0
    (0, fs_mounted, true)

/-! ## A concrete driver and concrete inputs -/

/-- Modelled from the spec: `stm32f769i_discovery_sd.h` is absent; a failure
status of the board support driver, any value other than `MSD_OK`. -/
def MSD_ERROR : Nat := 1

/-- The state of a card kept in memory: whether it is detected, whether its
bring-up succeeds, its block size in bytes and its bytes. -/
structure RamCard where
  present : Bool
  init_ok : Bool
  bsize : Nat
  data : List Nat
deriving DecidableEq, Repr

/-- Number of whole blocks of a card kept in memory. -/
def RamCard.nblocks (c : RamCard) : Nat := c.data.length / c.bsize

/-- Modelled from the spec: the board support driver is absent; a block
device that stores what is written to it (section 8). A transfer succeeds
when its block range lies inside the card (and, for a write, the data has the
size of the range) and fails otherwise; the timeout is ignored. -/
def ramCard : Bsp RamCard where
  BSP_SD_IsDetected c := (if c.present then SD_PRESENT else 0, c)
  BSP_SD_Init c := (if c.present && c.init_ok then MSD_OK else MSD_ERROR, c)
  BSP_SD_ReadBlocks c buff addr n _ :=
    if (addr + n) * c.bsize ≤ c.data.length then
      (MSD_OK, (c.data.drop (addr * c.bsize)).take (n * c.bsize), c)
    else
      (MSD_ERROR, buff, c)
  BSP_SD_WriteBlocks c buff addr n _ :=
    if (addr + n) * c.bsize ≤ c.data.length ∧ buff.length = n * c.bsize then
      let data := c.data.take (addr * c.bsize) ++ buff ++ c.data.drop ((addr + n) * c.bsize)
      (MSD_OK, { c with data := data })
    else
      (MSD_ERROR, c)
  BSP_SD_GetCardInfo c :=
    ({ CardType := CARD_SDHC_SDXC, CardVersion := 0x0200, LogBlockNbr := c.nblocks,
       LogBlockSize := c.bsize }, c)

/-- A detected card of four blocks of two bytes whose bring-up succeeds. -/
def card4 : Drv RamCard :=
  { dev := { present := true, init_ok := true, bsize := 2, data := [1, 2, 3, 4, 5, 6, 7, 8] },
    calls := [] }

/-- The card `card4` with a bring-up that fails. -/
def card4_init_fails : Drv RamCard :=
  { dev := { present := true, init_ok := false, bsize := 2, data := [1, 2, 3, 4, 5, 6, 7, 8] },
    calls := [] }

/-- The card `card4` removed from its slot. -/
def card4_absent : Drv RamCard :=
  { dev := { present := false, init_ok := true, bsize := 2, data := [1, 2, 3, 4, 5, 6, 7, 8] },
    calls := [] }

/-! ## The strings of the report, as the code builds them -/

/-- The string `list_files` appends for a directory entry (lines 75 to 88). -/
def entry_text (fno : FILINFO) : Text :=
  if fno.fattrib &&& AM_DIR ≠ 0 then
    snprintf 256 ("[DIR]  ".toList ++ cstr fno.fname ++ "\n".toList)
  else
    snprintf 256 ("       ".toList ++ cstr fno.fname ++ " (".toList ++
      fmt_lu fno.fsize ++ " bytes)\n".toList)

/-- The string `list_files` appends last (lines 100 to 102). -/
def total_text (file_count dir_count : Nat) : Text :=
  snprintf 256 ("\nTotal: ".toList ++ fmt_d file_count ++ " files, ".toList ++
    fmt_d dir_count ++ " directories\n".toList)

/-- The strings `get_sd_card_info` stores before it looks at `fs_mounted`. -/
def card_section (c : HAL_SD_CardInfoTypeDef) : List Text :=
  [snprintf 4096 "SD CARD INFORMATION\n===================\n\nCard Type: ".toList,
   if c.CardType = CARD_SDSC then "SDSC (Standard Capacity)\n".toList
   else if c.CardType = CARD_SDHC_SDXC then "SDHC/SDXC (High/Extended Capacity)\n".toList
   else if c.CardType = CARD_SECURED then "Secured Card\n".toList
   else "Unknown\n".toList,
   snprintf 128 ("Card Version: ".toList ++ fmt_lu ((c.CardVersion >>> 8) &&& 0xFF) ++
     ".".toList ++ fmt_lu (c.CardVersion &&& 0xFF) ++ "\n".toList),
   snprintf 128 ("\nCapacity: ".toList ++
     fmt_lu (u32 (u64 (u64 c.LogBlockNbr * u64 c.LogBlockSize) / (1024 * 1024))) ++
     " MB\n".toList),
   snprintf 128 ("Block Size: ".toList ++ fmt_lu c.LogBlockSize ++ " bytes\n".toList),
   snprintf 128 ("Block Count: ".toList ++ fmt_lu c.LogBlockNbr ++ "\n".toList)]

/-- The strings of the file system section (lines 169 to 194). -/
def fs_section (fs : FatFs) : List Text :=
  ["\nFILE SYSTEM\n".toList, "===========\n".toList] ++
  (if fs.getlabel_res = FR_OK then
    [if (cstr fs.label).isEmpty then "Label: (none)\n".toList
     else snprintf 128 ("Label: ".toList ++ cstr fs.label ++ "\n".toList)]
   else []) ++
  (if fs.getfree_res = FR_OK then
    [snprintf 128 ("Total: ".toList ++
       fmt_lu (u32 (u32 (fs.n_fatent + 2 ^ 32 - 2) * fs.csize) / 2048) ++ " MB\n".toList),
     snprintf 128 ("Free: ".toList ++ fmt_lu (u32 (fs.fre_clust * fs.csize) / 2048) ++
       " MB\n".toList)]
   else [])

/-- The report state when `get_sd_card_info` calls `list_files`. -/
def report_head (c : HAL_SD_CardInfoTypeDef) (fs_mounted : Nat) (fs : FatFs) : Report :=
  { info_buffer := card_section c ++ (if fs_mounted ≠ 0 then fs_section fs else []),
    fs_calls := if fs_mounted ≠ 0 then [FsCall.f_getlabel, FsCall.f_getfree] else [],
    truncated := false }

/-- An answer of `f_readdir` that the loop of `list_files` turns into a line:
the call succeeded and the name is not empty. -/
def entry_ok (a : Nat × FILINFO) : Prop := a.1 = FR_OK ∧ a.2.fname.headD NUL ≠ NUL

instance (a : Nat × FILINFO) : Decidable (entry_ok a) := by
  unfold entry_ok; infer_instance

/-- The test `fno.fattrib & AM_DIR`. -/
def is_dir (fno : FILINFO) : Bool := fno.fattrib &&& AM_DIR != 0

/-- The strings appended for the first `k` answers of `f_readdir`. -/
def entry_lines (l : List (Nat × FILINFO)) (k : Nat) : List Text :=
  (l.take k).map (fun a => entry_text a.2)

/-- What the loop of `list_files` has done when it is left, in terms of the
number `k` of answers of `f_readdir` it turned into lines and of whether it
was left because the buffer is nearly full (`t`). -/
structure LoopSpec (r : Report) (fc dc : Nat) (l : List (Nat × FILINFO)) (k : Nat) (t : Bool) :
    Prop where
  le : k ≤ l.length
  ok : ∀ a ∈ l.take k, entry_ok a
  flag : (list_files_loop r fc dc l).1.truncated = (r.truncated || t)
  buffer : (list_files_loop r fc dc l).1.info_buffer =
    r.info_buffer ++ entry_lines l k ++ (if t then [NOTICE] else [])
  files : (list_files_loop r fc dc l).2.1 =
    fc + ((l.take k).map Prod.snd).countP (fun e => !is_dir e)
  dirs : (list_files_loop r fc dc l).2.2 = dc + ((l.take k).map Prod.snd).countP is_dir
  calls : (list_files_loop r fc dc l).1.fs_calls =
    r.fs_calls ++ List.replicate (if t then k else k + 1) FsCall.f_readdir
  full : t = true → 0 < k ∧ 3796 < strlen (r.info_buffer ++ entry_lines l k)
  room : t = false →
    (0 < k → strlen (r.info_buffer ++ entry_lines l k) ≤ 3796) ∧
    (k = l.length ∨ ∃ a, l[k]? = some a ∧ ¬ entry_ok a)
  before : ∀ i, 0 < i → i < k → strlen (r.info_buffer ++ entry_lines l i) ≤ 3796

/-- A card of 4194304 blocks of 1073741824 bytes. -/
def card_huge : HAL_SD_CardInfoTypeDef :=
  { CardType := CARD_SDHC_SDXC, CardVersion := 0x0200, LogBlockNbr := 4194304,
    LogBlockSize := 1073741824 }

/-- A file system whose calls all fail. -/
def fs_none : FatFs :=
  { getlabel_res := 1, label := [], getfree_res := 1, fre_clust := 0, n_fatent := 0, csize := 0,
    opendir_res := 1, readdir := [] }

/-- A card of 2048 blocks of 512 bytes. -/
def card_1mib : HAL_SD_CardInfoTypeDef :=
  { CardType := CARD_SDHC_SDXC, CardVersion := 0x0200, LogBlockNbr := 2048, LogBlockSize := 512 }

/-- A directory whose name has 243 characters. -/
def long_dir : Nat × FILINFO :=
  (FR_OK, { fsize := 0, fattrib := AM_DIR, fname := List.replicate 243 'A' })

/-- A mounted volume whose root directory holds fifteen directories with
names of 243 characters. -/
def fs_long : FatFs :=
  { getlabel_res := FR_OK, label := "SDCARD".toList, getfree_res := FR_OK, fre_clust := 1000,
    n_fatent := 4002, csize := 8, opendir_res := FR_OK, readdir := List.replicate 14 long_dir ++ [long_dir] }

/-- The line of the listing for an entry, as the listing is specified:
`[DIR]  <name>` for a directory and `       <name> (<size> bytes)` for a
file, each closed by a line feed; the name is the C string in `fname`. -/
def listing_line (fno : FILINFO) : Text :=
  if is_dir fno then "[DIR]  ".toList ++ cstr fno.fname ++ "\n".toList
  else "       ".toList ++ cstr fno.fname ++ " (".toList ++ Nat.toDigits 10 fno.fsize ++
    " bytes)\n".toList

/-- The summary line of the listing, as it is specified:
`Total: F files, D directories` between two line feeds. -/
def listing_total (files dirs : Nat) : Text :=
  "\nTotal: ".toList ++ Nat.toDigits 10 files ++ " files, ".toList ++ Nat.toDigits 10 dirs ++
    " directories\n".toList

/-- Whether a string of the report is the line of a file. -/
def is_file_line (s : Text) : Bool := s.take 7 == "       ".toList

/-- Whether a string of the report is the line of a directory. -/
def is_dir_line (s : Text) : Bool := s.take 7 == "[DIR]  ".toList

/-- A mounted volume with the file `A.TXT` of 100 bytes and the directory `SUB`. -/
def fs_two : FatFs :=
  { getlabel_res := FR_OK, label := "SDCARD".toList, getfree_res := FR_OK, fre_clust := 1000,
    n_fatent := 4002, csize := 8, opendir_res := FR_OK,
    readdir := [(FR_OK, { fsize := 100, fattrib := 0x20, fname := "A.TXT".toList }),
      (FR_OK, { fsize := 0, fattrib := AM_DIR, fname := "SUB".toList })] }

/-- The empty report state. -/
def report_empty : Report := { info_buffer := [], fs_calls := [], truncated := false }

/-- A card in memory that reports blocks of 65536 bytes. -/
def card_wide : Drv RamCard :=
  { dev := { present := true, init_ok := true, bsize := 65536, data := [] }, calls := [] }

/-- A mounted volume of 4194304 clusters of 1024 sectors, all of them free. -/
def fs_big : FatFs :=
  { getlabel_res := FR_OK, label := "SDCARD".toList, getfree_res := FR_OK,
    fre_clust := 4194304, n_fatent := 4194306, csize := 1024, opendir_res := FR_OK,
    readdir := [] }

/-- A mounted volume whose root directory does not open (`FR_NO_PATH`). -/
def fs_no_dir : FatFs :=
  { getlabel_res := FR_OK, label := "SDCARD".toList, getfree_res := FR_OK, fre_clust := 1000,
    n_fatent := 4002, csize := 8, opendir_res := 5,
    readdir := [(FR_OK, { fsize := 100, fattrib := 0x20, fname := "A.TXT".toList })] }

/-- The answer of `f_readdir` for the file `A.TXT` of 100 bytes. -/
def file_a : Nat × FILINFO :=
  (FR_OK, { fsize := 100, fattrib := 0x20, fname := "A.TXT".toList })

/-- An answer of `f_readdir` that reports a disk error (`FR_DISK_ERR`). -/
def read_error : Nat × FILINFO :=
  (1, { fsize := 0, fattrib := 0, fname := [] })

/-! ## Lemmas -/

/-- The length of a buffer is additive over the strings stored into it. -/
theorem strlen_append (a b : List Text) : strlen (a ++ b) = strlen a + strlen b := by
  simp [strlen]

/-- The length of a buffer holding one string. -/
theorem strlen_singleton (s : Text) : strlen [s] = s.length := by
  simp [strlen]

/-- The empty buffer has length 0. -/
theorem strlen_nil : strlen [] = 0 := rfl

/-- The length of a buffer holding `n` copies of a string. -/
theorem strlen_replicate (n : Nat) (s : Text) : strlen (List.replicate n s) = n * s.length := by
  induction n with
  | zero => simp [strlen]
  | succ n ih =>
    rw [List.replicate_succ, ← List.singleton_append, strlen_append, strlen_singleton, ih]
    ring

/-- A buffer of non-empty strings is at least as long as their number. -/
theorem length_le_strlen (l : List Text) (h : ∀ s ∈ l, 0 < s.length) : l.length ≤ strlen l := by
  induction l with
  | nil => simp [strlen]
  | cons s l ih =>
    rw [← List.singleton_append, strlen_append, strlen_singleton]
    have := h s (List.mem_cons_self _ _)
    have := ih (fun x hx => h x (List.mem_cons_of_mem _ hx))
    simp only [List.singleton_append, List.length_cons]
    omega

/-- A text that fits is stored whole by `snprintf`. -/
theorem snprintf_of_length_le (size : Nat) (s : Text) (h : s.length ≤ size - 1) :
    snprintf size s = s := by
  simp [snprintf, List.take_of_length_le h]

/-- The text stored by `snprintf` leaves room for the terminator. -/
theorem snprintf_length_le (size : Nat) (s : Text) : (snprintf size s).length ≤ size - 1 := by
  simp [snprintf, List.length_take]

/-- A number below `10 ^ e` prints with at most `e` digits. -/
theorem toDigits_length_le (n e : Nat) (he : 0 < e) (h : n < 10 ^ e) :
    (Nat.toDigits 10 n).length ≤ e := by
  unfold Nat.toDigits
  exact Nat.toDigitsCore_length 10 (by decide) _ _ e h he

/-- The conversion `%lu` prints at most ten digits. -/
theorem fmt_lu_length (v : Nat) : (fmt_lu v).length ≤ 10 := by
  unfold fmt_lu Nat.toDigits
  exact Nat.toDigitsCore_length 10 (by decide) _ _ 10
    (lt_of_lt_of_le (Nat.mod_lt _ (by decide)) (by decide)) (by decide)

/-- A run of a character other than NUL is its own C string. -/
theorem cstr_replicate (n : Nat) (c : Char) (hc : c ≠ NUL) :
    cstr (List.replicate n c) = List.replicate n c := by
  induction n with
  | zero => simp [cstr]
  | succ n ih =>
    unfold cstr at ih ⊢
    rw [List.replicate_succ, List.takeWhile_cons, ih]
    simp [hc]

/-- The report is the listing appended to the card and file system sections. -/
theorem get_sd_card_info_eq (b : List Text) (c : HAL_SD_CardInfoTypeDef) (m : Nat) (fs : FatFs) :
    get_sd_card_info b c m fs = list_files m fs (report_head c m fs) := by
  unfold get_sd_card_info report_head
  simp only [memset, snprintf_buffer, strcat, fs_call, card_section, fs_section]
  by_cases hm : m = 0
  · simp only [hm, ne_eq, not_true_eq_false, if_false]
    split_ifs <;> simp
  · simp only [hm, ne_eq, not_false_eq_true, if_true]
    split_ifs <;> simp

/-- One pass of the loop of `list_files` over an answer of `f_readdir`. -/
theorem list_files_loop_cons (r : Report) (fc dc : Nat) (a : Nat × FILINFO)
    (rest : List (Nat × FILINFO)) :
    list_files_loop r fc dc (a :: rest) =
      if ¬ entry_ok a then (fs_call r FsCall.f_readdir, fc, dc)
      else if 3796 < strlen ((strcat (fs_call r FsCall.f_readdir) (entry_text a.2)).info_buffer) then
        ({ strcat (strcat (fs_call r FsCall.f_readdir) (entry_text a.2)) NOTICE with
            truncated := true },
          if is_dir a.2 then fc else fc + 1, if is_dir a.2 then dc + 1 else dc)
      else
        list_files_loop (strcat (fs_call r FsCall.f_readdir) (entry_text a.2))
          (if is_dir a.2 then fc else fc + 1) (if is_dir a.2 then dc + 1 else dc) rest := by
  rw [list_files_loop]
  unfold entry_ok is_dir entry_text
  by_cases h1 : a.1 = FR_OK <;> by_cases h2 : a.2.fname.headD NUL = NUL <;>
    by_cases hd : a.2.fattrib &&& AM_DIR = 0 <;>
    simp [h1, h2, hd]

/-- No answer, no line. -/
theorem entry_lines_zero (l : List (Nat × FILINFO)) : entry_lines l 0 = [] := by
  simp [entry_lines]

/-- The lines of the first `k + 1` answers. -/
theorem entry_lines_cons (a : Nat × FILINFO) (l : List (Nat × FILINFO)) (k : Nat) :
    entry_lines (a :: l) (k + 1) = entry_text a.2 :: entry_lines l k := by
  simp [entry_lines]

/-- There is one line for every answer turned into a line. -/
theorem entry_lines_length (l : List (Nat × FILINFO)) (k : Nat) (hk : k ≤ l.length) :
    (entry_lines l k).length = k := by
  simp [entry_lines, hk]

/-- The loop of `list_files` ends, and at its exit the state is described by
`LoopSpec` for some number of lines `k` and some exit reason `t`. -/
theorem list_files_loop_spec (l : List (Nat × FILINFO)) :
    ∀ (r : Report) (fc dc : Nat), ∃ k t, LoopSpec r fc dc l k t := by
  induction l with
  | nil =>
    intro r fc dc
    refine ⟨0, false, ?_⟩
    constructor <;> simp [list_files_loop, fs_call, entry_lines]
  | cons a rest ih =>
    intro r fc dc
    by_cases hv : entry_ok a
    · by_cases hp : 3796 < strlen ((strcat (fs_call r FsCall.f_readdir) (entry_text a.2)).info_buffer)
      · refine ⟨1, true, ?_⟩
        have hp2 : 3796 < strlen (r.info_buffer ++ [entry_text a.2]) := by
          simpa [strcat, fs_call] using hp
        have hloop : list_files_loop r fc dc (a :: rest) =
            ({ strcat (strcat (fs_call r FsCall.f_readdir) (entry_text a.2)) NOTICE with
                truncated := true },
              if is_dir a.2 then fc else fc + 1, if is_dir a.2 then dc + 1 else dc) := by
          rw [list_files_loop_cons]; simp [hv, hp]
        constructor
        · simp
        · simp [hv]
        · rw [hloop]; simp
        · rw [hloop]; simp [strcat, fs_call, entry_lines]
        · rw [hloop]
          cases hd : is_dir a.2 <;> simp [hd]
        · rw [hloop]
          cases hd : is_dir a.2 <;> simp [hd]
        · rw [hloop]; simp [strcat, fs_call]
        · intro _
          simpa [entry_lines] using hp2
        · simp
        · intro i hi hi1
          omega
      · obtain ⟨k, t, hk⟩ := ih (strcat (fs_call r FsCall.f_readdir) (entry_text a.2))
          (if is_dir a.2 then fc else fc + 1) (if is_dir a.2 then dc + 1 else dc)
        have hp2 : strlen (r.info_buffer ++ [entry_text a.2]) ≤ 3796 := by
          simpa [strcat, fs_call] using hp
        have hloop : list_files_loop r fc dc (a :: rest) =
            list_files_loop (strcat (fs_call r FsCall.f_readdir) (entry_text a.2))
              (if is_dir a.2 then fc else fc + 1) (if is_dir a.2 then dc + 1 else dc) rest := by
          rw [list_files_loop_cons]; simp [hv, hp]
        have hb : (strcat (fs_call r FsCall.f_readdir) (entry_text a.2)).info_buffer =
            r.info_buffer ++ [entry_text a.2] := by simp [strcat, fs_call]
        have hc : (strcat (fs_call r FsCall.f_readdir) (entry_text a.2)).fs_calls =
            r.fs_calls ++ [FsCall.f_readdir] := by simp [strcat, fs_call]
        have hf : (strcat (fs_call r FsCall.f_readdir) (entry_text a.2)).truncated =
            r.truncated := by simp [strcat, fs_call]
        refine ⟨k + 1, t, ?_⟩
        constructor
        · simpa using hk.le
        · intro x hx
          simp only [List.take_succ_cons, List.mem_cons] at hx
          rcases hx with rfl | hx
          · exact hv
          · exact hk.ok x hx
        · rw [hloop, hk.flag, hf]
        · rw [hloop, hk.buffer, hb, entry_lines_cons]; simp
        · rw [hloop, hk.files]
          cases hd : is_dir a.2
          · simp [hd]; omega
          · simp [hd]
        · rw [hloop, hk.dirs]
          cases hd : is_dir a.2
          · simp [hd]
          · simp [hd]; omega
        · rw [hloop, hk.calls, hc]
          split_ifs <;> simp [List.replicate_succ]
        · intro ht
          have := hk.full ht
          rw [hb] at this
          refine ⟨Nat.succ_pos k, ?_⟩
          rw [entry_lines_cons]
          simpa using this.2
        · intro ht
          have := hk.room ht
          rw [hb] at this
          constructor
          · intro _
            rw [entry_lines_cons]
            by_cases hk0 : 0 < k
            · simpa using this.1 hk0
            · have : k = 0 := by omega
              subst this
              simpa [entry_lines_zero] using hp2
          · rcases this.2 with h | h
            · left; simp [h]
            · right; simpa using h
        · intro i hi hik
          obtain ⟨j, rfl⟩ : ∃ j, i = j + 1 := ⟨i - 1, by omega⟩
          rw [entry_lines_cons]
          by_cases hj : 0 < j
          · have := hk.before j hj (by omega)
            rw [hb] at this
            simpa using this
          · have : j = 0 := by omega
            subst this
            simpa [entry_lines_zero] using hp2
    · refine ⟨0, false, ?_⟩
      constructor <;> simp [list_files_loop_cons, hv, fs_call, entry_lines]

/-- While the answers are entries and the buffer stays within the limit, the
loop appends their lines and goes on with the remaining answers. -/
theorem list_files_loop_append (pre rest : List (Nat × FILINFO)) :
    ∀ (r : Report) (fc dc : Nat), (∀ a ∈ pre, entry_ok a) →
      strlen (r.info_buffer ++ pre.map (fun a => entry_text a.2)) ≤ 3796 →
      list_files_loop r fc dc (pre ++ rest) =
        list_files_loop
          { info_buffer := r.info_buffer ++ pre.map (fun a => entry_text a.2),
            fs_calls := r.fs_calls ++ List.replicate pre.length FsCall.f_readdir,
            truncated := r.truncated }
          (fc + (pre.map Prod.snd).countP (fun e => !is_dir e))
          (dc + (pre.map Prod.snd).countP is_dir) rest := by
  induction pre with
  | nil =>
    intro r fc dc _ _
    cases r
    simp
  | cons a pre ih =>
    intro r fc dc hok hlen
    have ha : entry_ok a := hok a (List.mem_cons_self _ _)
    have hlen1 : strlen (r.info_buffer ++ [entry_text a.2]) ≤ 3796 := by
      simp only [List.map_cons, strlen_append, strlen_singleton] at hlen ⊢
      rw [← List.singleton_append, strlen_append, strlen_singleton] at hlen
      omega
    have hp : ¬ 3796 < strlen ((strcat (fs_call r FsCall.f_readdir) (entry_text a.2)).info_buffer) := by
      simpa [strcat, fs_call] using hlen1
    rw [List.cons_append, list_files_loop_cons]
    simp only [ha, hp, not_true_eq_false, if_false]
    rw [ih _ _ _ (fun x hx => hok x (List.mem_cons_of_mem _ hx))
      (by simpa [strcat, fs_call] using hlen)]
    congr 1
    · simp [strcat, fs_call, List.replicate_succ]
    · cases hd : is_dir a.2
      · simp [hd]; omega
      · simp [hd]
    · cases hd : is_dir a.2
      · simp [hd]
      · simp [hd]; omega

/-- A directory whose lines all stay within the limit is listed to its end. -/
theorem list_files_loop_all (l : List (Nat × FILINFO)) (r : Report) (fc dc : Nat)
    (hok : ∀ a ∈ l, entry_ok a)
    (hlen : strlen (r.info_buffer ++ l.map (fun a => entry_text a.2)) ≤ 3796) :
    list_files_loop r fc dc l =
      ({ info_buffer := r.info_buffer ++ l.map (fun a => entry_text a.2),
         fs_calls := r.fs_calls ++ List.replicate (l.length + 1) FsCall.f_readdir,
         truncated := r.truncated },
        fc + (l.map Prod.snd).countP (fun e => !is_dir e),
        dc + (l.map Prod.snd).countP is_dir) := by
  have h := list_files_loop_append l [] r fc dc hok hlen
  rw [List.append_nil] at h
  rw [h, list_files_loop]
  have hrep : List.replicate l.length FsCall.f_readdir ++ [FsCall.f_readdir] =
      List.replicate (l.length + 1) FsCall.f_readdir := by
    rw [List.replicate_add]; rfl
  simp [fs_call, hrep]

/-- The loop is left with the truncation notice at the first entry whose line
takes the buffer over the limit. -/
theorem list_files_loop_full (pre rest : List (Nat × FILINFO)) (a : Nat × FILINFO)
    (r : Report) (fc dc : Nat) (hok : ∀ x ∈ pre, entry_ok x) (ha : entry_ok a)
    (hlen : strlen (r.info_buffer ++ pre.map (fun x => entry_text x.2)) ≤ 3796)
    (hfull : 3796 < strlen (r.info_buffer ++ pre.map (fun x => entry_text x.2)) +
      (entry_text a.2).length) :
    list_files_loop r fc dc (pre ++ a :: rest) =
      ({ info_buffer :=
            r.info_buffer ++ pre.map (fun x => entry_text x.2) ++ [entry_text a.2, NOTICE],
          fs_calls := r.fs_calls ++ List.replicate (pre.length + 1) FsCall.f_readdir,
          truncated := true },
        fc + ((pre ++ [a]).map Prod.snd).countP (fun e => !is_dir e),
        dc + ((pre ++ [a]).map Prod.snd).countP is_dir) := by
  rw [list_files_loop_append pre (a :: rest) r fc dc hok hlen, list_files_loop_cons]
  have hp : 3796 < strlen ((strcat (fs_call
      { info_buffer := r.info_buffer ++ pre.map (fun x => entry_text x.2),
        fs_calls := r.fs_calls ++ List.replicate pre.length FsCall.f_readdir,
        truncated := r.truncated } FsCall.f_readdir) (entry_text a.2)).info_buffer) := by
    simp only [strcat, fs_call]
    rw [strlen_append, strlen_singleton]
    exact hfull
  simp only [ha, hp, not_true_eq_false, if_false, if_true]
  refine Prod.ext ?_ (Prod.ext ?_ ?_)
  · have hrep : List.replicate pre.length FsCall.f_readdir ++ [FsCall.f_readdir] =
        List.replicate (pre.length + 1) FsCall.f_readdir := by
      rw [List.replicate_add]; rfl
    simp [strcat, fs_call, hrep]
  · cases hd : is_dir a.2
    · simp [hd, List.countP_append]; omega
    · simp [hd, List.countP_append]
  · cases hd : is_dir a.2
    · simp [hd, List.countP_append]
    · simp [hd, List.countP_append]; omega

/-- `list_files` on a mounted volume whose root directory opens. -/
theorem list_files_mounted (m : Nat) (fs : FatFs) (r : Report) (hm : m ≠ 0)
    (ho : fs.opendir_res = FR_OK) :
    list_files m fs r =
      strcat (fs_call (list_files_loop (fs_call (strcat (strcat r
          "\n\nFILES AND DIRECTORIES\n".toList) "=====================\n\n".toList)
          FsCall.f_opendir) 0 0 fs.readdir).1 FsCall.f_closedir)
        (total_text
          (list_files_loop (fs_call (strcat (strcat r
            "\n\nFILES AND DIRECTORIES\n".toList) "=====================\n\n".toList)
            FsCall.f_opendir) 0 0 fs.readdir).2.1
          (list_files_loop (fs_call (strcat (strcat r
            "\n\nFILES AND DIRECTORIES\n".toList) "=====================\n\n".toList)
            FsCall.f_opendir) 0 0 fs.readdir).2.2) := by
  unfold list_files total_text
  simp only [hm, ho, if_false, ne_eq, not_true_eq_false]

/-- `list_files` only appends to the buffer. -/
theorem list_files_buffer_append (m : Nat) (fs : FatFs) (r : Report) :
    ∃ t, (list_files m fs r).info_buffer = r.info_buffer ++ t := by
  by_cases hm : m = 0
  · exact ⟨_, by simp [list_files, hm, strcat]; rfl⟩
  · by_cases ho : fs.opendir_res = FR_OK
    · rw [list_files_mounted m fs r hm ho]
      obtain ⟨k, t, h⟩ := list_files_loop_spec fs.readdir (fs_call (strcat (strcat r
          "\n\nFILES AND DIRECTORIES\n".toList) "=====================\n\n".toList)
          FsCall.f_opendir) 0 0
      simp only [strcat, fs_call] at h ⊢
      rw [h.buffer]
      simp only [List.append_assoc]
      exact ⟨_, rfl⟩
    · exact ⟨_, by simp [list_files, hm, ho, strcat, fs_call]; rfl⟩

/-- The fourth string of every report is the capacity line. -/
theorem card_section_get (b : List Text) (c : HAL_SD_CardInfoTypeDef) (m : Nat) (fs : FatFs) :
    (get_sd_card_info b c m fs).info_buffer[3]? =
      some (snprintf 128 ("\nCapacity: ".toList ++
        fmt_lu (u32 (u64 (u64 c.LogBlockNbr * u64 c.LogBlockSize) / (1024 * 1024))) ++
        " MB\n".toList)) := by
  rw [get_sd_card_info_eq]
  obtain ⟨t, ht⟩ := list_files_buffer_append m fs (report_head c m fs)
  rw [ht]
  simp [report_head, card_section]

/-- The summary line is not cut by `snprintf`. -/
theorem total_text_eq (f d : Nat) (hf : f < 10 ^ 100) (hd : d < 10 ^ 100) :
    total_text f d = listing_total f d := by
  unfold total_text listing_total fmt_d
  apply snprintf_of_length_le
  have h1 := toDigits_length_le f 100 (by decide) hf
  have h2 := toDigits_length_le d 100 (by decide) hd
  simp only [List.length_append]
  have e1 : "\nTotal: ".toList.length = 8 := by decide
  have e2 : " files, ".toList.length = 8 := by decide
  have e3 : " directories\n".toList.length = 13 := by decide
  omega

/-- An entry line that fits in `temp` is the line of the listing. -/
theorem entry_text_eq (fno : FILINFO) (hs : fno.fsize < 2 ^ 32)
    (hfit : (listing_line fno).length ≤ 255) : entry_text fno = listing_line fno := by
  unfold entry_text listing_line is_dir at *
  by_cases hd : fno.fattrib &&& AM_DIR = 0
  · simp only [hd, ne_eq, not_true_eq_false, if_false, bne_self_eq_false, Bool.false_eq_true,
      fmt_lu, Nat.mod_eq_of_lt hs] at hfit ⊢
    exact snprintf_of_length_le _ _ hfit
  · have hb : (fno.fattrib &&& AM_DIR != 0) = true := by simpa using hd
    simp only [hd, hb, ne_eq, not_false_eq_true, if_true] at hfit ⊢
    exact snprintf_of_length_le _ _ hfit

/-- An entry line has at least the seven characters of its tag. -/
theorem entry_text_length (fno : FILINFO) : 7 ≤ (entry_text fno).length := by
  unfold entry_text snprintf
  split_ifs <;> simp [List.length_take]

/-- Entry lines take at least as many characters as there are lines. -/
theorem entry_lines_length_le (l : List (Nat × FILINFO)) (k : Nat) :
    (entry_lines l k).length ≤ strlen (entry_lines l k) := by
  apply length_le_strlen
  intro s hs
  unfold entry_lines at hs
  obtain ⟨a, _, rfl⟩ := List.mem_map.1 hs
  have := entry_text_length a.2
  omega

/-- No string of the card and file system sections is an entry line or the
truncation notice. -/
theorem report_head_no_entry (c : HAL_SD_CardInfoTypeDef) (m : Nat) (fs : FatFs) :
    ∀ s ∈ (report_head c m fs).info_buffer,
      is_file_line s = false ∧ is_dir_line s = false ∧ s ≠ NOTICE := by
  intro s hs
  unfold is_file_line is_dir_line NOTICE
  by_cases hm : m = 0
  · simp only [report_head, card_section, snprintf, hm, ne_eq, not_true_eq_false, if_false,
      List.append_nil, List.mem_cons, List.not_mem_nil, or_false] at hs
    rcases hs with rfl | rfl | rfl | rfl | rfl | rfl
    all_goals first | (split_ifs <;> simp) | simp [List.take_take]
  · simp only [report_head, card_section, fs_section, snprintf, hm, ne_eq, not_false_eq_true,
      if_true, List.mem_append, List.mem_cons, List.not_mem_nil, or_false] at hs
    rcases hs with (rfl | rfl | rfl | rfl | rfl | rfl) | ((rfl | rfl) | hs) | hs
    all_goals first | (split_ifs <;> simp) | simp [List.take_take]
    · split_ifs at hs
      · simp only [List.mem_singleton] at hs
        subst hs
        simp
      · simp only [List.mem_singleton] at hs
        subst hs
        simp [List.take_take]
      · simp at hs
    · split_ifs at hs
      · simp only [List.mem_cons, List.not_mem_nil, or_false] at hs
        rcases hs with rfl | rfl <;> simp [List.take_take]
      · simp at hs

/-- An entry line is a file line or a directory line, by the attribute of the
entry, and never the truncation notice. -/
theorem entry_text_kind (fno : FILINFO) :
    is_file_line (entry_text fno) = !is_dir fno ∧ is_dir_line (entry_text fno) = is_dir fno ∧
      entry_text fno ≠ NOTICE := by
  unfold is_file_line is_dir_line entry_text is_dir NOTICE snprintf
  by_cases hd : fno.fattrib &&& AM_DIR = 0
  · simp [hd, List.take_take]
  · simp [hd, List.take_take]

/-- The summary line is no entry line and not the truncation notice. -/
theorem listing_total_kind (f d : Nat) :
    is_file_line (listing_total f d) = false ∧ is_dir_line (listing_total f d) = false ∧
      listing_total f d ≠ NOTICE := by
  unfold is_file_line is_dir_line listing_total NOTICE
  simp

/-- The file lines among the entry lines are the lines of the files. -/
theorem entry_lines_countP_file (l : List (Nat × FILINFO)) (k : Nat) :
    (entry_lines l k).countP is_file_line = ((l.take k).filter (fun a => !is_dir a.2)).length := by
  unfold entry_lines
  rw [List.countP_map, List.countP_eq_length_filter]
  congr 1
  apply List.filter_congr
  intro a _
  exact (entry_text_kind a.2).1

/-- The directory lines among the entry lines are the lines of the directories. -/
theorem entry_lines_countP_dir (l : List (Nat × FILINFO)) (k : Nat) :
    (entry_lines l k).countP is_dir_line = ((l.take k).filter (fun a => is_dir a.2)).length := by
  unfold entry_lines
  rw [List.countP_map, List.countP_eq_length_filter]
  congr 1
  apply List.filter_congr
  intro a _
  exact (entry_text_kind a.2).2.1

/-- No entry line is the truncation notice. -/
theorem entry_lines_no_notice (l : List (Nat × FILINFO)) (k : Nat) :
    NOTICE ∉ entry_lines l k := by
  unfold entry_lines
  intro h
  obtain ⟨a, _, ha⟩ := List.mem_map.1 h
  exact (entry_text_kind a.2).2.2 ha

/-- The card and file system sections take at most 1100 characters. -/
theorem report_head_strlen (c : HAL_SD_CardInfoTypeDef) (m : Nat) (fs : FatFs) :
    strlen (report_head c m fs).info_buffer ≤ 1100 := by
  have h1 := snprintf_length_le 128 ("Card Version: ".toList ++
    fmt_lu ((c.CardVersion >>> 8) &&& 0xFF) ++ ".".toList ++ fmt_lu (c.CardVersion &&& 0xFF) ++
    "\n".toList)
  have h2 := snprintf_length_le 128 ("\nCapacity: ".toList ++
    fmt_lu (u32 (u64 (u64 c.LogBlockNbr * u64 c.LogBlockSize) / (1024 * 1024))) ++
    " MB\n".toList)
  have h3 := snprintf_length_le 128 ("Block Size: ".toList ++ fmt_lu c.LogBlockSize ++
    " bytes\n".toList)
  have h4 := snprintf_length_le 128 ("Block Count: ".toList ++ fmt_lu c.LogBlockNbr ++
    "\n".toList)
  have h5 := snprintf_length_le 128 ("Label: ".toList ++ cstr fs.label ++ "\n".toList)
  have h6 := snprintf_length_le 128 ("Total: ".toList ++
    fmt_lu (u32 (u32 (fs.n_fatent + 2 ^ 32 - 2) * fs.csize) / 2048) ++ " MB\n".toList)
  have h7 := snprintf_length_le 128 ("Free: ".toList ++
    fmt_lu (u32 (fs.fre_clust * fs.csize) / 2048) ++ " MB\n".toList)
  have h0 : (snprintf 4096
      "SD CARD INFORMATION\n===================\n\nCard Type: ".toList).length = 52 := by
    decide
  have hc : strlen (card_section c) ≤ 52 + 35 + 127 * 4 := by
    unfold card_section strlen
    simp only [List.length_flatten, List.map_cons, List.map_nil, List.sum_cons, List.sum_nil, h0]
    have ht : (if c.CardType = CARD_SDSC then "SDSC (Standard Capacity)\n".toList
        else if c.CardType = CARD_SDHC_SDXC then "SDHC/SDXC (High/Extended Capacity)\n".toList
        else if c.CardType = CARD_SECURED then "Secured Card\n".toList
        else "Unknown\n".toList).length ≤ 35 := by
      split_ifs <;> decide
    omega
  have hf : strlen (fs_section fs) ≤ 13 + 12 + 127 * 3 := by
    unfold fs_section
    simp only [strlen_append]
    have e1 : strlen ["\nFILE SYSTEM\n".toList, "===========\n".toList] = 25 := by decide
    have e2 : strlen (if fs.getlabel_res = FR_OK then
        [if (cstr fs.label).isEmpty then "Label: (none)\n".toList
         else snprintf 128 ("Label: ".toList ++ cstr fs.label ++ "\n".toList)]
        else []) ≤ 127 := by
      split_ifs
      · decide
      · rw [strlen_singleton]; exact h5
      · decide
    have e3 : strlen (if fs.getfree_res = FR_OK then
        [snprintf 128 ("Total: ".toList ++
           fmt_lu (u32 (u32 (fs.n_fatent + 2 ^ 32 - 2) * fs.csize) / 2048) ++ " MB\n".toList),
         snprintf 128 ("Free: ".toList ++ fmt_lu (u32 (fs.fre_clust * fs.csize) / 2048) ++
           " MB\n".toList)]
        else []) ≤ 127 * 2 := by
      split_ifs
      · simp only [strlen, List.length_flatten, List.map_cons, List.map_nil, List.sum_cons,
          List.sum_nil]
        omega
      · decide
    omega
  unfold report_head
  simp only [strlen_append]
  split_ifs
  · omega
  · simp only [strlen_nil]; omega

/-- The shape of a report whose listing was cut short: the volume is mounted,
the directory opened, `k` entries were appended, each at a buffer length
within the limit, the last of them took the buffer over the limit, and the
notice and the summary line follow. -/
theorem get_sd_card_info_truncated (b : List Text) (c : HAL_SD_CardInfoTypeDef) (m : Nat)
    (fs : FatFs) (ht : (get_sd_card_info b c m fs).truncated = true) :
    m ≠ 0 ∧ fs.opendir_res = FR_OK ∧
    ∃ k, 0 < k ∧ k ≤ fs.readdir.length ∧ (∀ a ∈ fs.readdir.take k, entry_ok a) ∧
      (∀ i, i < k → strlen ((report_head c m fs).info_buffer ++
        ["\n\nFILES AND DIRECTORIES\n".toList, "=====================\n\n".toList] ++
        entry_lines fs.readdir i) ≤
          max 3796 (strlen ((report_head c m fs).info_buffer ++
            ["\n\nFILES AND DIRECTORIES\n".toList, "=====================\n\n".toList]))) ∧
      3796 < strlen ((report_head c m fs).info_buffer ++
        ["\n\nFILES AND DIRECTORIES\n".toList, "=====================\n\n".toList] ++
        entry_lines fs.readdir k) ∧
      (get_sd_card_info b c m fs).info_buffer =
        (report_head c m fs).info_buffer ++
          ["\n\nFILES AND DIRECTORIES\n".toList, "=====================\n\n".toList] ++
          entry_lines fs.readdir k ++
          [NOTICE, total_text
            (((fs.readdir.take k).filter (fun a => !is_dir a.2)).length)
            (((fs.readdir.take k).filter (fun a => is_dir a.2)).length)] ∧
      (get_sd_card_info b c m fs).fs_calls =
        (report_head c m fs).fs_calls ++ [FsCall.f_opendir] ++
          List.replicate k FsCall.f_readdir ++ [FsCall.f_closedir] := by
  rw [get_sd_card_info_eq] at ht ⊢
  have hm : m ≠ 0 := by
    intro hm
    simp [list_files, hm, strcat, report_head] at ht
  have ho : fs.opendir_res = FR_OK := by
    by_contra ho
    simp [list_files, hm, ho, strcat, fs_call, report_head] at ht
  refine ⟨hm, ho, ?_⟩
  rw [list_files_mounted m fs _ hm ho] at ht ⊢
  obtain ⟨k, t, h⟩ := list_files_loop_spec fs.readdir (fs_call (strcat (strcat
    (report_head c m fs) "\n\nFILES AND DIRECTORIES\n".toList)
    "=====================\n\n".toList) FsCall.f_opendir) 0 0
  have hb0 : (fs_call (strcat (strcat (report_head c m fs)
      "\n\nFILES AND DIRECTORIES\n".toList) "=====================\n\n".toList)
      FsCall.f_opendir).info_buffer = (report_head c m fs).info_buffer ++
        ["\n\nFILES AND DIRECTORIES\n".toList, "=====================\n\n".toList] := by
    simp [strcat, fs_call]
  have hc0 : (fs_call (strcat (strcat (report_head c m fs)
      "\n\nFILES AND DIRECTORIES\n".toList) "=====================\n\n".toList)
      FsCall.f_opendir).fs_calls = (report_head c m fs).fs_calls ++ [FsCall.f_opendir] := by
    simp [strcat, fs_call]
  have htt : t = true := by
    have hf := h.flag
    simp only [strcat, fs_call] at ht hf
    rw [hf] at ht
    simpa [report_head] using ht
  subst htt
  have hfull := h.full rfl
  rw [hb0] at hfull
  refine ⟨k, hfull.1, h.le, h.ok, ?_, hfull.2, ?_, ?_⟩
  · intro i hi
    by_cases hi0 : 0 < i
    · have := h.before i hi0 hi
      rw [hb0] at this
      exact le_trans this (le_max_left _ _)
    · have : i = 0 := by omega
      subst this
      simp [entry_lines_zero]
  · have hf : (List.map Prod.snd (fs.readdir.take k)).countP (fun e => !is_dir e) =
        ((fs.readdir.take k).filter (fun a => !is_dir a.2)).length := by
      rw [List.countP_map, List.countP_eq_length_filter]; rfl
    have hd : (List.map Prod.snd (fs.readdir.take k)).countP is_dir =
        ((fs.readdir.take k).filter (fun a => is_dir a.2)).length := by
      rw [List.countP_map, List.countP_eq_length_filter]; rfl
    simp only [strcat, fs_call] at h ⊢
    rw [h.buffer, h.files, h.dirs, hf, hd]
    simp
  · simp only [strcat, fs_call] at h ⊢
    rw [h.calls]
    simp

/-- The line of a directory with a name of 243 characters has 251 characters. -/
theorem long_dir_length : (entry_text long_dir.2).length = 251 := by
  have h : is_dir long_dir.2 = true := by decide
  unfold is_dir at h
  have h2 : long_dir.2.fattrib &&& AM_DIR ≠ 0 := by simpa using h
  unfold entry_text
  rw [if_pos h2]
  have hn : long_dir.2.fname = List.replicate 243 (Char.ofNat 65) := rfl
  rw [hn, cstr_replicate _ _ (by decide)]
  simp only [snprintf, List.length_take, List.length_append, List.length_replicate]
  decide

/-- The report for the volume `fs_long`. -/
theorem get_sd_card_info_fs_long (b : List Text) :
    get_sd_card_info b card_1mib 1 fs_long =
      { info_buffer := (report_head card_1mib 1 fs_long).info_buffer ++
          ["\n\nFILES AND DIRECTORIES\n".toList, "=====================\n\n".toList] ++
          List.replicate 14 (entry_text long_dir.2) ++
          [entry_text long_dir.2, NOTICE, total_text 0 15],
        fs_calls := [FsCall.f_getlabel, FsCall.f_getfree, FsCall.f_opendir] ++
          List.replicate 15 FsCall.f_readdir ++ [FsCall.f_closedir],
        truncated := true } := by
  have e1 : entry_ok long_dir := by decide
  have e2 : is_dir long_dir.2 = true := by decide
  have e4 : strlen (report_head card_1mib 1 fs_long).info_buffer = 224 := by
    simp [report_head, card_section, fs_section, strlen, fs_long, card_1mib, snprintf]
    decide
  have e7 : fs_long.readdir = List.replicate 14 long_dir ++ long_dir :: [] := rfl
  have e9 : ∀ a ∈ List.replicate 14 long_dir, entry_ok a := by
    intro a ha
    rw [List.eq_of_mem_replicate ha]
    exact e1
  rw [get_sd_card_info_eq, list_files_mounted _ _ _ (by decide) rfl, e7,
    list_files_loop_full _ _ _ _ _ _ e9 e1]
  · simp only [strcat, fs_call, List.map_append, List.map_replicate, List.countP_append,
      List.countP_replicate, List.map_cons, List.map_nil, e2]
    simp [report_head, e2]
  · simp only [strcat, fs_call, List.map_replicate, strlen_append, strlen_replicate,
      strlen_singleton, long_dir_length, e4]
    decide
  · simp only [strcat, fs_call, List.map_replicate, strlen_append, strlen_replicate,
      strlen_singleton, long_dir_length, e4]
    decide

/-- A block range inside the card in memory lies inside its bytes. -/
theorem ramCard_in_range (c : RamCard) (s n : Nat) (h : s + n ≤ c.nblocks) :
    (s + n) * c.bsize ≤ c.data.length := by
  unfold RamCard.nblocks at h
  calc (s + n) * c.bsize ≤ c.data.length / c.bsize * c.bsize := Nat.mul_le_mul_right _ h
    _ ≤ c.data.length := Nat.div_mul_le_self _ _

/-- A write inside the card in memory replaces the bytes of the range. -/
theorem ramCard_write (c : RamCard) (data : List Nat) (s n t : Nat)
    (h : (s + n) * c.bsize ≤ c.data.length) (hd : data.length = n * c.bsize) :
    ramCard.BSP_SD_WriteBlocks c data s n t =
      (MSD_OK, { c with
        data := (c.data.take (s * c.bsize) ++ data ++ c.data.drop ((s + n) * c.bsize)) }) := by
  simp [ramCard, h, hd]

/-- A read inside the card in memory returns the bytes of the range. -/
theorem ramCard_read (c : RamCard) (buff : List Nat) (s n t : Nat)
    (h : (s + n) * c.bsize ≤ c.data.length) :
    ramCard.BSP_SD_ReadBlocks c buff s n t =
      (MSD_OK, (c.data.drop (s * c.bsize)).take (n * c.bsize), c) := by
  simp [ramCard, h]

/-- The bytes written into a range are the bytes of that range afterwards. -/
theorem take_drop_written (l data : List Nat) (a b : Nat) (ha : a ≤ l.length) :
    ((l.take a ++ data ++ l.drop b).drop a).take data.length = data := by
  have hl : (l.take a).length = a := by simp [ha]
  rw [List.append_assoc, List.drop_append_of_le_length (by omega)]
  rw [List.drop_of_length_le (by omega), List.nil_append, List.take_left]

/-- Writing a range does not change the size of the card. -/
theorem length_written (l data : List Nat) (a n : Nat) (hb : a + n ≤ l.length)
    (hd : data.length = n) : (l.take a ++ data ++ l.drop (a + n)).length = l.length := by
  simp only [List.length_append, List.length_take, List.length_drop, hd]
  omega

/-- Writing back the bytes of a range leaves the card as it is. -/
theorem write_back (l : List Nat) (a n : Nat) :
    l.take a ++ (l.drop a).take n ++ l.drop (a + n) = l := by
  rw [List.append_assoc, ← List.drop_drop, List.take_append_drop, List.take_append_drop]

/-- `disk_write` on drive 0 of the card in memory, for a range inside the card. -/
theorem disk_write_ramCard (d : Drv RamCard) (data : List Nat) (sector count : Nat)
    (hrange : sector + count ≤ d.dev.nblocks) (h32 : d.dev.nblocks < 2 ^ 32)
    (hdata : data.length = count * d.dev.bsize) :
    (disk_write ramCard DEV_SD data sector count d).1 = DRESULT.RES_OK ∧
    (disk_write ramCard DEV_SD data sector count d).2.dev =
      { d.dev with data := (d.dev.data.take (sector * d.dev.bsize) ++ data ++
          d.dev.data.drop ((sector + count) * d.dev.bsize)) } := by
  have hs : u32 sector = sector := Nat.mod_eq_of_lt (by omega)
  have hin := ramCard_in_range d.dev sector count hrange
  simp only [disk_write, if_true, hs, ramCard_write d.dev data sector count 10000 hin hdata]
  simp

/-- `disk_read` on drive 0 of the card in memory, for a range inside the card. -/
theorem disk_read_ramCard (d : Drv RamCard) (buff : List Nat) (sector count : Nat)
    (hin : (sector + count) * d.dev.bsize ≤ d.dev.data.length) (h32 : sector < 2 ^ 32) :
    (disk_read ramCard DEV_SD buff sector count d).res = DRESULT.RES_OK ∧
    (disk_read ramCard DEV_SD buff sector count d).buff =
      (d.dev.data.drop (sector * d.dev.bsize)).take (count * d.dev.bsize) ∧
    (disk_read ramCard DEV_SD buff sector count d).drv.dev = d.dev := by
  have hs : u32 sector = sector := Nat.mod_eq_of_lt h32
  simp only [disk_read, if_true, hs, ramCard_read d.dev buff sector count 10000 hin]
  simp

/-- The strings of the file system section, by their place in the report. -/
theorem fs_section_get (b : List Text) (c : HAL_SD_CardInfoTypeDef) (m : Nat) (fs : FatFs)
    (hm : m ≠ 0) (hl : fs.getlabel_res = FR_OK) (hf : fs.getfree_res = FR_OK) :
    (get_sd_card_info b c m fs).info_buffer[6]? = some "\nFILE SYSTEM\n".toList ∧
    (get_sd_card_info b c m fs).info_buffer[7]? = some "===========\n".toList ∧
    (get_sd_card_info b c m fs).info_buffer[8]? =
      some (if (cstr fs.label).isEmpty then "Label: (none)\n".toList
        else snprintf 128 ("Label: ".toList ++ cstr fs.label ++ "\n".toList)) ∧
    (get_sd_card_info b c m fs).info_buffer[9]? =
      some (snprintf 128 ("Total: ".toList ++
        fmt_lu (u32 (u32 (fs.n_fatent + 2 ^ 32 - 2) * fs.csize) / 2048) ++ " MB\n".toList)) ∧
    (get_sd_card_info b c m fs).info_buffer[10]? =
      some (snprintf 128 ("Free: ".toList ++ fmt_lu (u32 (fs.fre_clust * fs.csize) / 2048) ++
        " MB\n".toList)) := by
  rw [get_sd_card_info_eq]
  obtain ⟨t, ht⟩ := list_files_buffer_append m fs (report_head c m fs)
  rw [ht]
  simp [report_head, card_section, fs_section, hm, hl, hf]

/-- A 32 bit sector count divided by 2048 is printed as it is. -/
theorem fmt_lu_div (x : Nat) : fmt_lu (x % 2 ^ 32 / 2048) = Nat.toDigits 10 (x % 2 ^ 32 / 2048) := by
  unfold fmt_lu
  rw [Nat.mod_eq_of_lt]
  have : x % 2 ^ 32 < 2 ^ 32 := Nat.mod_lt _ (by decide)
  omega

/-- A short line around one `%lu` fits in the 128 characters of `temp`. -/
theorem snprintf_128_lu (pre post : Text) (v : Nat) (h : pre.length + post.length ≤ 117) :
    snprintf 128 (pre ++ fmt_lu v ++ post) = pre ++ fmt_lu v ++ post := by
  apply snprintf_of_length_le
  have := fmt_lu_length v
  simp only [List.length_append]
  omega

/-- No string of the card and file system sections starts like the summary
line of the listing. -/
theorem report_head_no_total (c : HAL_SD_CardInfoTypeDef) (m : Nat) (fs : FatFs) :
    ∀ s ∈ (report_head c m fs).info_buffer, s.take 2 ≠ "\nT".toList := by
  intro s hs
  by_cases hm : m = 0
  · simp only [report_head, card_section, snprintf, hm, ne_eq, not_true_eq_false, if_false,
      List.append_nil, List.mem_cons, List.not_mem_nil, or_false] at hs
    rcases hs with rfl | rfl | rfl | rfl | rfl | rfl
    all_goals first | (split_ifs <;> simp) | simp [List.take_take]
  · simp only [report_head, card_section, fs_section, snprintf, hm, ne_eq, not_false_eq_true,
      if_true, List.mem_append, List.mem_cons, List.not_mem_nil, or_false] at hs
    rcases hs with (rfl | rfl | rfl | rfl | rfl | rfl) | ((rfl | rfl) | hs) | hs
    all_goals first | (split_ifs <;> simp) | simp [List.take_take]
    · split_ifs at hs
      · simp only [List.mem_singleton] at hs
        subst hs
        simp
      · simp only [List.mem_singleton] at hs
        subst hs
        simp [List.take_take]
      · simp at hs
    · split_ifs at hs
      · simp only [List.mem_cons, List.not_mem_nil, or_false] at hs
        rcases hs with rfl | rfl <;> simp [List.take_take]
      · simp at hs

/-- An answer of `f_readdir` that reports an error ends the loop like the end
of the directory. -/
theorem list_files_loop_error (pre rest : List (Nat × FILINFO)) (bad : Nat × FILINFO)
    (hbad : bad.1 ≠ FR_OK) :
    ∀ (r : Report) (fc dc : Nat),
      list_files_loop r fc dc (pre ++ bad :: rest) = list_files_loop r fc dc pre := by
  have hb : ¬ entry_ok bad := fun h => hbad h.1
  induction pre with
  | nil =>
    intro r fc dc
    rw [List.nil_append, list_files_loop_cons, if_pos hb]
    rfl
  | cons a pre ih =>
    intro r fc dc
    rw [List.cons_append, list_files_loop_cons, list_files_loop_cons]
    split_ifs <;> first | rfl | exact ih _ _ _

/-! ## The claims -/

/-- C1, failing input: with the volume `fs_long` (fifteen directories whose
names have 243 characters) the loop of `list_files` appends fourteen lines,
the fifteenth takes the buffer from 3785 to 4036 characters, and the notice
and the summary line that follow bring the text to 4098 characters, more
than the 4096 bytes of `info_buffer`. -/
theorem info_buffer_overflow :
    (get_sd_card_info [] card_1mib 1 fs_long).truncated = true ∧
    strlen (get_sd_card_info [] card_1mib 1 fs_long).info_buffer = 4098 ∧
    4096 < strlen (get_sd_card_info [] card_1mib 1 fs_long).info_buffer := by
  have e4 : strlen (report_head card_1mib 1 fs_long).info_buffer = 224 := by
    simp [report_head, card_section, fs_section, strlen, fs_long, card_1mib, snprintf]
    decide
  have e5 : (total_text 0 15).length = 32 := by decide
  have e6 : NOTICE.length = 30 := by decide
  have e10 : strlen [entry_text long_dir.2, NOTICE, total_text 0 15] = 313 := by
    simp [strlen, long_dir_length, e6, e5]
  have h : strlen (get_sd_card_info [] card_1mib 1 fs_long).info_buffer = 4098 := by
    rw [get_sd_card_info_fs_long]
    simp only [strlen_append, strlen_replicate, long_dir_length, e4, e10]
    decide
  exact ⟨by rw [get_sd_card_info_fs_long], h, by rw [h]; decide⟩

/-- C2: when the loop of `list_files` is left because the buffer is nearly
full, the volume is mounted, the truncation notice is among the strings
appended to the report exactly once, the report ends with the notice
followed by the line `Total: F files, D directories`, and `F` and `D` are
the numbers of file lines and of directory lines appended before the notice
(which are all the file and directory lines of the report). The text before
the notice is longer than `4096 - 300` characters. -/
theorem truncation_notice_once (b : List Text) (c : HAL_SD_CardInfoTypeDef) (m : Nat)
    (fs : FatFs) (ht : (get_sd_card_info b c m fs).truncated = true) :
    m ≠ 0 ∧
    (get_sd_card_info b c m fs).info_buffer.count NOTICE = 1 ∧
    ∃ pre,
      (get_sd_card_info b c m fs).info_buffer =
        pre ++ [NOTICE, listing_total (pre.countP is_file_line) (pre.countP is_dir_line)] ∧
      4096 - 300 < strlen pre ∧
      (get_sd_card_info b c m fs).info_buffer.countP is_file_line = pre.countP is_file_line ∧
      (get_sd_card_info b c m fs).info_buffer.countP is_dir_line = pre.countP is_dir_line := by
  obtain ⟨hm, _, k, hk0, hkl, _, hbefore, hfull, hbuf, _⟩ :=
    get_sd_card_info_truncated b c m fs ht
  have hhead := report_head_no_entry c m fs
  have hk : k ≤ 10000 := by
    have h1 := hbefore (k - 1) (by omega)
    have h2 := entry_lines_length_le fs.readdir (k - 1)
    rw [entry_lines_length fs.readdir (k - 1) (by omega)] at h2
    have h3 := report_head_strlen c m fs
    have e1 : strlen ["\n\nFILES AND DIRECTORIES\n".toList,
      "=====================\n\n".toList] = 47 := by decide
    simp only [strlen_append, e1] at h1
    have h4 : max 3796 (strlen (report_head c m fs).info_buffer + 47) ≤ 3796 := by
      apply max_le <;> omega
    omega
  have hF : ((fs.readdir.take k).filter (fun a => !is_dir a.2)).length ≤ k :=
    (List.length_filter_le _ _).trans (by simp)
  have hD : ((fs.readdir.take k).filter (fun a => is_dir a.2)).length ≤ k :=
    (List.length_filter_le _ _).trans (by simp)
  rw [total_text_eq _ _ (lt_of_le_of_lt (hF.trans hk) (by norm_num))
    (lt_of_le_of_lt (hD.trans hk) (by norm_num))] at hbuf
  have hcf : ((report_head c m fs).info_buffer ++
      ["\n\nFILES AND DIRECTORIES\n".toList, "=====================\n\n".toList] ++
      entry_lines fs.readdir k).countP is_file_line =
        ((fs.readdir.take k).filter (fun a => !is_dir a.2)).length := by
    rw [List.countP_append, List.countP_append, entry_lines_countP_file,
      List.countP_eq_zero.2 (fun s hs => by simp [(hhead s hs).1])]
    simp [is_file_line]
  have hcd : ((report_head c m fs).info_buffer ++
      ["\n\nFILES AND DIRECTORIES\n".toList, "=====================\n\n".toList] ++
      entry_lines fs.readdir k).countP is_dir_line =
        ((fs.readdir.take k).filter (fun a => is_dir a.2)).length := by
    rw [List.countP_append, List.countP_append, entry_lines_countP_dir,
      List.countP_eq_zero.2 (fun s hs => by simp [(hhead s hs).2.1])]
    simp [is_dir_line]
  have hnot : NOTICE ∉ (report_head c m fs).info_buffer ++
      ["\n\nFILES AND DIRECTORIES\n".toList, "=====================\n\n".toList] ++
      entry_lines fs.readdir k := by
    simp only [List.mem_append, not_or]
    refine ⟨⟨fun hs => (hhead _ hs).2.2 rfl, ?_⟩, entry_lines_no_notice _ _⟩
    simp [NOTICE]
  have htot := listing_total_kind ((fs.readdir.take k).filter (fun a => !is_dir a.2)).length
    ((fs.readdir.take k).filter (fun a => is_dir a.2)).length
  refine ⟨hm, ?_, _, ?_, hfull, ?_, ?_⟩
  · rw [hbuf, List.count_append, List.count_eq_zero.2 hnot]
    simp [List.count_cons, Ne.symm htot.2.2]
  · rw [hcf, hcd]; exact hbuf
  · have hn : is_file_line NOTICE = false := by decide
    rw [hbuf, List.countP_append]
    simp [List.countP_cons, hn, htot.1]
  · have hn : is_dir_line NOTICE = false := by decide
    rw [hbuf, List.countP_append]
    simp [List.countP_cons, hn, htot.2.1]

/-- Witness of C2: the volume `fs_long`, whose listing is cut short. -/
theorem truncation_notice_once_witness :
    (get_sd_card_info [] card_1mib 1 fs_long).truncated = true ∧
    (get_sd_card_info [] card_1mib 1 fs_long).info_buffer.count NOTICE = 1 :=
  ⟨by rw [get_sd_card_info_fs_long],
    (truncation_notice_once [] card_1mib 1 fs_long (by rw [get_sd_card_info_fs_long])).2.1⟩

/-- C3: with `fs_mounted = 0` the report is the card section followed by the
four lines of the section FILE SYSTEM NOT MOUNTED and nothing else: no header
of the file system section, no header of the listing, no line that starts
like a Total line or an entry line; and no FatFs call is made (no
`f_getlabel`, `f_getfree`, `f_opendir`, `f_readdir`, `f_closedir`). -/
theorem get_sd_card_info_not_mounted (b : List Text) (c : HAL_SD_CardInfoTypeDef) (fs : FatFs) :
    (get_sd_card_info b c 0 fs).info_buffer =
      card_section c ++ ["\n\nFILE SYSTEM NOT MOUNTED\n".toList, "=======================\n".toList,
        "Unable to read file system.\n".toList, "Card may not be formatted with FAT.\n".toList] ∧
    "\n\nFILE SYSTEM NOT MOUNTED\n".toList ∈ (get_sd_card_info b c 0 fs).info_buffer ∧
    "\nFILE SYSTEM\n".toList ∉ (get_sd_card_info b c 0 fs).info_buffer ∧
    "\n\nFILES AND DIRECTORIES\n".toList ∉ (get_sd_card_info b c 0 fs).info_buffer ∧
    (∀ s ∈ (get_sd_card_info b c 0 fs).info_buffer, s.take 8 ≠ "\nTotal: ".toList ∧
      s.take 7 ≠ "Total: ".toList ∧ s.take 7 ≠ "[DIR]  ".toList ∧ s.take 7 ≠ "       ".toList) ∧
    (get_sd_card_info b c 0 fs).fs_calls = [] ∧
    (get_sd_card_info b c 0 fs).text = (card_section c).flatten ++
      ("\n\nFILE SYSTEM NOT MOUNTED\n=======================\n" ++
        "Unable to read file system.\nCard may not be formatted with FAT.\n").toList := by
  have h : get_sd_card_info b c 0 fs =
      { info_buffer := card_section c ++ ["\n\nFILE SYSTEM NOT MOUNTED\n".toList,
          "=======================\n".toList, "Unable to read file system.\n".toList,
          "Card may not be formatted with FAT.\n".toList],
        fs_calls := [], truncated := false } := by
    rw [get_sd_card_info_eq]
    simp [list_files, report_head, strcat]
  rw [h]
  refine ⟨rfl, ?_, ?_, ?_, ?_, rfl, ?_⟩
  · simp
  · simp only [card_section, snprintf]
    split_ifs <;> simp
  · simp only [card_section, snprintf]
    split_ifs <;> simp
  · intro s hs
    simp only [card_section, snprintf, List.cons_append, List.nil_append, List.mem_cons,
      List.mem_singleton, List.not_mem_nil, or_false] at hs
    rcases hs with rfl | rfl | rfl | rfl | rfl | rfl | rfl | rfl | rfl | rfl
    all_goals first | (split_ifs <;> simp) | simp [List.take_take]
  · simp [Report.text]

/-- C4, counterexample: a card reporting 4194304 blocks of 1073741824 bytes
has `sector_count * sector_size / 1048576 = 4294967296`, and its capacity
line reads `Capacity: 0 MB`. -/
theorem capacity_line_counterexample :
    card_huge.wf ∧
    card_huge.LogBlockNbr * card_huge.LogBlockSize / 1048576 = 4294967296 ∧
    (get_sd_card_info [] card_huge 0 fs_none).info_buffer[3]? =
      some "\nCapacity: 0 MB\n".toList := by
  refine ⟨by unfold HAL_SD_CardInfoTypeDef.wf; decide, by decide, ?_⟩
  rw [card_section_get]
  decide

/-- C4, amended: for a sector count and a sector size that are 32 bit values
the capacity line reads `Capacity: N MB` with
`N = (sector_count * sector_size / 1048576) mod 2 ^ 32`, the quotient cast to
`uint32_t`; `N` is the quotient itself whenever
`sector_count * sector_size < 2 ^ 52`; a sector size of 512 gives
`Capacity: 1 MB` for 2048 sectors and `Capacity: 0 MB` for 2047. -/
theorem capacity_line (b : List Text) (c : HAL_SD_CardInfoTypeDef) (m : Nat) (fs : FatFs)
    (hn : c.LogBlockNbr < 2 ^ 32) (hs : c.LogBlockSize < 2 ^ 32) :
    (get_sd_card_info b c m fs).info_buffer[3]? =
      some ("\nCapacity: ".toList ++
        Nat.toDigits 10 (c.LogBlockNbr * c.LogBlockSize / 1048576 % 2 ^ 32) ++
        " MB\n".toList) ∧
    (c.LogBlockNbr * c.LogBlockSize < 2 ^ 52 →
      (get_sd_card_info b c m fs).info_buffer[3]? =
        some ("\nCapacity: ".toList ++
          Nat.toDigits 10 (c.LogBlockNbr * c.LogBlockSize / 1048576) ++ " MB\n".toList)) ∧
    (c.LogBlockSize = 512 → c.LogBlockNbr = 2048 →
      (get_sd_card_info b c m fs).info_buffer[3]? = some "\nCapacity: 1 MB\n".toList) ∧
    (c.LogBlockSize = 512 → c.LogBlockNbr = 2047 →
      (get_sd_card_info b c m fs).info_buffer[3]? = some "\nCapacity: 0 MB\n".toList) := by
  have hprod : c.LogBlockNbr * c.LogBlockSize < 2 ^ 64 := by
    calc c.LogBlockNbr * c.LogBlockSize ≤ (2 ^ 32 - 1) * (2 ^ 32 - 1) :=
          Nat.mul_le_mul (by omega) (by omega)
      _ < 2 ^ 64 := by norm_num
  have hcap : u32 (u64 (u64 c.LogBlockNbr * u64 c.LogBlockSize) / (1024 * 1024)) =
      c.LogBlockNbr * c.LogBlockSize / 1048576 % 2 ^ 32 := by
    have hn64 : c.LogBlockNbr % 2 ^ 64 = c.LogBlockNbr := Nat.mod_eq_of_lt (by omega)
    have hs64 : c.LogBlockSize % 2 ^ 64 = c.LogBlockSize := Nat.mod_eq_of_lt (by omega)
    simp only [u32, u64, hn64, hs64, Nat.mod_eq_of_lt hprod]
  have hline : (get_sd_card_info b c m fs).info_buffer[3]? =
      some ("\nCapacity: ".toList ++
        Nat.toDigits 10 (c.LogBlockNbr * c.LogBlockSize / 1048576 % 2 ^ 32) ++
        " MB\n".toList) := by
    rw [card_section_get, hcap, snprintf_of_length_le]
    · simp [fmt_lu]
    · have := fmt_lu_length (c.LogBlockNbr * c.LogBlockSize / 1048576 % 2 ^ 32)
      simp only [List.length_append]
      have h1 : "\nCapacity: ".toList.length = 11 := by decide
      have h2 : " MB\n".toList.length = 4 := by decide
      omega
  refine ⟨hline, ?_, ?_, ?_⟩
  · intro h
    rw [hline, Nat.mod_eq_of_lt]
    have : c.LogBlockNbr * c.LogBlockSize / 1048576 < 2 ^ 52 / 1048576 + 1 := by omega
    omega
  · intro h1 h2
    rw [hline, h1, h2]
    decide
  · intro h1 h2
    rw [hline, h1, h2]
    decide

/-- Witness of the amended C4: the card of 2048 blocks of 512 bytes. -/
theorem capacity_line_witness :
    (card_1mib.LogBlockNbr < 2 ^ 32 ∧ card_1mib.LogBlockSize < 2 ^ 32) ∧
    (get_sd_card_info [] card_1mib 1 fs_two).info_buffer[3]? =
      some "\nCapacity: 1 MB\n".toList :=
  ⟨⟨by decide, by decide⟩,
    (capacity_line [] card_1mib 1 fs_two (by decide) (by decide)).2.2.1 rfl rfl⟩

/-- C5: on a mounted volume whose root directory opens, whose `f_readdir`
answers are all entries (success, a name that is not empty, a 32 bit size),
whose lines each fit in the 255 characters of `temp` and keep the buffer
within `4096 - 300` characters, `list_files` appends the two header strings,
then one line for every entry in the order of enumeration, `[DIR]  <name>`
for a directory and `       <name> (<size> bytes)` for a file, then
`Total: F files, D directories` with `F` and `D` the numbers of files and of
directories; it calls `f_opendir`, `f_readdir` once for every entry and once
more for the end of the directory, and `f_closedir`. -/
theorem list_files_lists_every_entry (m : Nat) (fs : FatFs) (r : Report)
    (hm : m ≠ 0) (ho : fs.opendir_res = FR_OK)
    (hok : ∀ a ∈ fs.readdir, a.1 = FR_OK ∧ a.2.fname.headD NUL ≠ NUL ∧ a.2.fsize < 2 ^ 32)
    (hfit : ∀ a ∈ fs.readdir, (listing_line a.2).length ≤ 255)
    (hroom : strlen (r.info_buffer ++
      ["\n\nFILES AND DIRECTORIES\n".toList, "=====================\n\n".toList] ++
      fs.readdir.map (fun a => listing_line a.2)) ≤ 4096 - 300) :
    (list_files m fs r).info_buffer =
      r.info_buffer ++
        ["\n\nFILES AND DIRECTORIES\n".toList, "=====================\n\n".toList] ++
        fs.readdir.map (fun a => listing_line a.2) ++
        [listing_total ((fs.readdir.filter (fun a => !is_dir a.2)).length)
          ((fs.readdir.filter (fun a => is_dir a.2)).length)] ∧
    (list_files m fs r).fs_calls =
      r.fs_calls ++ [FsCall.f_opendir] ++
        List.replicate (fs.readdir.length + 1) FsCall.f_readdir ++ [FsCall.f_closedir] ∧
    (list_files m fs r).truncated = r.truncated := by
  have hlines : fs.readdir.map (fun a => entry_text a.2) =
      fs.readdir.map (fun a => listing_line a.2) := by
    apply List.map_congr_left
    intro a ha
    exact entry_text_eq a.2 (hok a ha).2.2 (hfit a ha)
  have hok2 : ∀ a ∈ fs.readdir, entry_ok a := fun a ha => ⟨(hok a ha).1, (hok a ha).2.1⟩
  have hn : fs.readdir.length ≤ 3796 := by
    have h1 := entry_lines_length_le fs.readdir fs.readdir.length
    simp only [entry_lines, List.take_length, List.length_map] at h1
    rw [hlines] at h1
    simp only [strlen_append] at hroom
    omega
  have hf : (fs.readdir.map Prod.snd).countP (fun e => !is_dir e) =
      (fs.readdir.filter (fun a => !is_dir a.2)).length := by
    rw [List.countP_map, List.countP_eq_length_filter]; rfl
  have hd : (fs.readdir.map Prod.snd).countP is_dir =
      (fs.readdir.filter (fun a => is_dir a.2)).length := by
    rw [List.countP_map, List.countP_eq_length_filter]; rfl
  have hfn : (fs.readdir.filter (fun a => !is_dir a.2)).length ≤ fs.readdir.length :=
    List.length_filter_le _ _
  have hdn : (fs.readdir.filter (fun a => is_dir a.2)).length ≤ fs.readdir.length :=
    List.length_filter_le _ _
  rw [list_files_mounted m fs r hm ho, list_files_loop_all fs.readdir _ 0 0 hok2
    (by simpa [strcat, fs_call, hlines] using hroom)]
  simp only [strcat, fs_call, hlines, hf, hd, Nat.zero_add]
  rw [total_text_eq _ _ (lt_of_le_of_lt (hfn.trans hn) (by norm_num))
    (lt_of_le_of_lt (hdn.trans hn) (by norm_num))]
  simp

/-- Witness of C5: the file `A.TXT` of 100 bytes and the directory `SUB`. -/
theorem list_files_lists_every_entry_witness :
    (∀ a ∈ fs_two.readdir, (listing_line a.2).length ≤ 255) ∧
    (list_files 1 fs_two report_empty).info_buffer =
      ["\n\nFILES AND DIRECTORIES\n".toList, "=====================\n\n".toList,
        "       A.TXT (100 bytes)\n".toList, "[DIR]  SUB\n".toList,
        "\nTotal: 1 files, 1 directories\n".toList] :=
  ⟨by decide,
    (list_files_lists_every_entry 1 fs_two report_empty (by decide) rfl (by decide) (by decide)
      (by decide)).1.trans (by decide)⟩

/-- C6: on drive 0 `disk_read` and `disk_write` return `RES_OK` exactly when
the block transfer of the driver reports `MSD_OK` and `RES_ERROR` otherwise;
on every other drive index they return `RES_PARERR`, which differs from
`RES_ERROR`, and the driver is not called (device state, call log and data
buffer are unchanged). -/
theorem disk_read_write_result {σ : Type} (bsp : Bsp σ) (pdrv : Nat) (buff : List Nat)
    (sector count : Nat) (d : Drv σ) :
    (pdrv = DEV_SD →
      (((disk_read bsp pdrv buff sector count d).res = DRESULT.RES_OK ↔
          (bsp.BSP_SD_ReadBlocks d.dev buff (u32 sector) count 10000).1 = MSD_OK) ∧
        ((disk_read bsp pdrv buff sector count d).res = DRESULT.RES_ERROR ↔
          (bsp.BSP_SD_ReadBlocks d.dev buff (u32 sector) count 10000).1 ≠ MSD_OK)) ∧
      (((disk_write bsp pdrv buff sector count d).1 = DRESULT.RES_OK ↔
          (bsp.BSP_SD_WriteBlocks d.dev buff (u32 sector) count 10000).1 = MSD_OK) ∧
        ((disk_write bsp pdrv buff sector count d).1 = DRESULT.RES_ERROR ↔
          (bsp.BSP_SD_WriteBlocks d.dev buff (u32 sector) count 10000).1 ≠ MSD_OK))) ∧
    (pdrv ≠ DEV_SD →
      (disk_read bsp pdrv buff sector count d).res = DRESULT.RES_PARERR ∧
      (disk_read bsp pdrv buff sector count d).drv.calls = d.calls ∧
      (disk_read bsp pdrv buff sector count d).drv.dev = d.dev ∧
      (disk_read bsp pdrv buff sector count d).buff = buff ∧
      (disk_write bsp pdrv buff sector count d).1 = DRESULT.RES_PARERR ∧
      (disk_write bsp pdrv buff sector count d).2.calls = d.calls ∧
      (disk_write bsp pdrv buff sector count d).2.dev = d.dev ∧
      DRESULT.RES_PARERR ≠ DRESULT.RES_ERROR) := by
  constructor
  · intro h
    subst h
    simp only [disk_read, disk_write, if_true]
    by_cases hr : (bsp.BSP_SD_ReadBlocks d.dev buff (u32 sector) count 10000).1 = MSD_OK <;>
      by_cases hw : (bsp.BSP_SD_WriteBlocks d.dev buff (u32 sector) count 10000).1 = MSD_OK <;>
      simp [hr, hw]
  · intro h
    simp [disk_read, disk_write, h]

/-- Witness of C6 on the card in memory: a read inside the card, a write
beyond its end, and both on drive 1. -/
theorem disk_read_write_result_witness :
    ((disk_read ramCard 0 [] 1 2 card4).res = DRESULT.RES_OK ∧
      (disk_write ramCard 0 [9, 9] 4 1 card4).1 = DRESULT.RES_ERROR) ∧
    ((disk_read ramCard 1 [] 1 2 card4).res = DRESULT.RES_PARERR ∧
      (disk_read ramCard 1 [] 1 2 card4).drv.calls = []) :=
  have h := disk_read_write_result ramCard 0 [] 1 2 card4
  have hw := disk_read_write_result ramCard 0 [9, 9] 4 1 card4
  have h1 := disk_read_write_result ramCard 1 [] 1 2 card4
  ⟨⟨((h.1 rfl).1.1).2 (by decide), ((hw.1 rfl).2.2).2 (by decide)⟩,
    ⟨(h1.2 (by decide)).1, (h1.2 (by decide)).2.1⟩⟩

/-- C7, counterexample: on the card in memory (four blocks) a read and a
write of two blocks at block 3 leave the card, and the adapter answers
`RES_ERROR`, not `RES_PARERR`. -/
theorem disk_read_write_out_of_range_counterexample :
    (ramCard.BSP_SD_GetCardInfo card4.dev).1.LogBlockNbr < 3 + 2 ∧
    (disk_read ramCard DEV_SD [] 3 2 card4).res = DRESULT.RES_ERROR ∧
    (disk_read ramCard DEV_SD [] 3 2 card4).res ≠ DRESULT.RES_PARERR ∧
    (disk_write ramCard DEV_SD [9, 9, 9, 9] 3 2 card4).1 = DRESULT.RES_ERROR ∧
    (disk_write ramCard DEV_SD [9, 9, 9, 9] 3 2 card4).1 ≠ DRESULT.RES_PARERR := by
  decide

/-- C7, amended: for a request on drive 0 whose range exceeds the sector
count the card reports, the adapter makes no range check of its own. It
passes the request to the block transfer of the driver and returns `RES_OK`
when the transfer reports `MSD_OK` and `RES_ERROR` otherwise, never
`RES_PARERR`. -/
theorem disk_read_write_no_range_check {σ : Type} (bsp : Bsp σ) (buff : List Nat)
    (sector count : Nat) (d : Drv σ)
    (_h : (bsp.BSP_SD_GetCardInfo d.dev).1.LogBlockNbr < sector + count) :
    (disk_read bsp DEV_SD buff sector count d).res ≠ DRESULT.RES_PARERR ∧
    (disk_read bsp DEV_SD buff sector count d).drv.calls =
      d.calls ++ [BspCall.ReadBlocks (u32 sector) count 10000] ∧
    (disk_read bsp DEV_SD buff sector count d).res =
      (if (bsp.BSP_SD_ReadBlocks d.dev buff (u32 sector) count 10000).1 = MSD_OK
        then DRESULT.RES_OK else DRESULT.RES_ERROR) ∧
    (disk_write bsp DEV_SD buff sector count d).1 ≠ DRESULT.RES_PARERR ∧
    (disk_write bsp DEV_SD buff sector count d).2.calls =
      d.calls ++ [BspCall.WriteBlocks buff (u32 sector) count 10000] ∧
    (disk_write bsp DEV_SD buff sector count d).1 =
      (if (bsp.BSP_SD_WriteBlocks d.dev buff (u32 sector) count 10000).1 = MSD_OK
        then DRESULT.RES_OK else DRESULT.RES_ERROR) := by
  simp only [disk_read, disk_write, if_true]
  by_cases hr : (bsp.BSP_SD_ReadBlocks d.dev buff (u32 sector) count 10000).1 = MSD_OK <;>
    by_cases hw : (bsp.BSP_SD_WriteBlocks d.dev buff (u32 sector) count 10000).1 = MSD_OK <;>
    simp [hr, hw]

/-- Witness of the amended C7: two blocks at block 3 of the four block card. -/
theorem disk_read_write_no_range_check_witness :
    (ramCard.BSP_SD_GetCardInfo card4.dev).1.LogBlockNbr < 3 + 2 ∧
    (disk_read ramCard DEV_SD [] 3 2 card4).res ≠ DRESULT.RES_PARERR :=
  ⟨by decide, (disk_read_write_no_range_check ramCard [] 3 2 card4 (by decide)).1⟩

/-- C8: on drive 0 `disk_status` returns `STA_NODISK` when the presence
detection does not answer `SD_PRESENT` and 0 when it does, in every device
state, also in the state left by a call of `disk_initialize`; on every other
drive index it returns `STA_NOINIT` and the driver is not called. -/
theorem disk_status_result {σ : Type} (bsp : Bsp σ) (pdrv : Nat) (d : Drv σ) :
    (pdrv = DEV_SD →
      ((bsp.BSP_SD_IsDetected d.dev).1 ≠ SD_PRESENT → (disk_status bsp pdrv d).1 = STA_NODISK) ∧
      ((bsp.BSP_SD_IsDetected d.dev).1 = SD_PRESENT → (disk_status bsp pdrv d).1 = 0) ∧
      (∀ q : Nat,
        ((bsp.BSP_SD_IsDetected ( disk_initialize bsp q d).2.dev).1 ≠ SD_PRESENT →
          (disk_status bsp pdrv ( disk_initialize bsp q d).2).1 = STA_NODISK) ∧
        ((bsp.BSP_SD_IsDetected ( disk_initialize bsp q d).2.dev).1 = SD_PRESENT →
          (disk_status bsp pdrv ( disk_initialize bsp q d).2).1 = 0))) ∧
    (pdrv ≠ DEV_SD →
      (disk_status bsp pdrv d).1 = STA_NOINIT ∧
      (disk_status bsp pdrv d).2.calls = d.calls ∧
      (disk_status bsp pdrv d).2.dev = d.dev) := by
  constructor
  · intro h
    subst h
    refine ⟨?_, ?_, ?_⟩
    · intro hn
      simp [disk_status, hn]
    · intro hp
      simp [disk_status, hp]
    · intro q
      constructor
      · intro hn
        simp [disk_status, hn]
      · intro hp
        simp [disk_status, hp]
  · intro h
    simp [disk_status, h]

/-- Witness of C8: the card removed from its slot, before and after a call
of `disk_initialize`, the detected card, and drive 1. -/
theorem disk_status_result_witness :
    (disk_status ramCard 0 card4_absent).1 = STA_NODISK ∧
    (disk_status ramCard 0 ( disk_initialize ramCard 0 card4_absent).2).1 = STA_NODISK ∧
    (disk_status ramCard 0 card4).1 = 0 ∧
    (disk_status ramCard 1 card4).1 = STA_NOINIT ∧
    (disk_status ramCard 1 card4).2.calls = [] :=
  have h := disk_status_result ramCard 0 card4_absent
  have hp := disk_status_result ramCard 0 card4
  have h1 := disk_status_result ramCard 1 card4
  ⟨(h.1 rfl).1 (by decide), ((h.1 rfl).2.2 0).1 (by decide), (hp.1 rfl).2.1 (by decide),
    (h1.2 (by decide)).1, (h1.2 (by decide)).2.1⟩

/-- C9, counterexample: on the card in memory whose bring-up fails,
`disk_initialize` returns `STA_NOINIT`, and the read and the write that
follow it both succeed. -/
theorem disk_read_after_failed_initialize_counterexample :
    ( disk_initialize ramCard DEV_SD card4_init_fails).1 = STA_NOINIT ∧
    (disk_read ramCard DEV_SD [] 1 2
      ( disk_initialize ramCard DEV_SD card4_init_fails).2).res = DRESULT.RES_OK ∧
    (disk_read ramCard DEV_SD [] 1 2
      ( disk_initialize ramCard DEV_SD card4_init_fails).2).buff = [3, 4, 5, 6] ∧
    (disk_write ramCard DEV_SD [9, 9] 0 1
      ( disk_initialize ramCard DEV_SD card4_init_fails).2).1 = DRESULT.RES_OK := by
  decide

/-- C9, amended: on drive 0 `disk_initialize` calls the device init on every
call and returns 0 exactly when it reports `MSD_OK` and `STA_NOINIT`
otherwise; on every other drive index it returns `STA_NOINIT`, the value
`disk_status` returns for that index, without calling the driver. The
adapter keeps no record of the outcome: in the state left by any
`disk_initialize`, failed or not, `disk_read` and `disk_write` on drive 0
still call the block transfer and return `RES_OK` exactly when it reports
`MSD_OK`. -/
theorem disk_initialize_result {σ : Type} (bsp : Bsp σ) (pdrv : Nat) (d : Drv σ)
    (buff : List Nat) (sector count : Nat) :
    (pdrv = DEV_SD →
      ( disk_initialize bsp pdrv d).2.calls = d.calls ++ [BspCall.Init] ∧
      ( disk_initialize bsp pdrv d).2.dev = (bsp.BSP_SD_Init d.dev).2 ∧
      (( disk_initialize bsp pdrv d).1 = 0 ↔ (bsp.BSP_SD_Init d.dev).1 = MSD_OK) ∧
      (( disk_initialize bsp pdrv d).1 = STA_NOINIT ↔ (bsp.BSP_SD_Init d.dev).1 ≠ MSD_OK)) ∧
    (pdrv ≠ DEV_SD →
      ( disk_initialize bsp pdrv d).1 = STA_NOINIT ∧
      ( disk_initialize bsp pdrv d).1 = (disk_status bsp pdrv d).1 ∧
      ( disk_initialize bsp pdrv d).2.calls = d.calls ∧
      ( disk_initialize bsp pdrv d).2.dev = d.dev) ∧
    ((disk_read bsp DEV_SD buff sector count ( disk_initialize bsp pdrv d).2).res =
        DRESULT.RES_OK ↔
      (bsp.BSP_SD_ReadBlocks ( disk_initialize bsp pdrv d).2.dev buff (u32 sector) count
        10000).1 = MSD_OK) ∧
    ((disk_write bsp DEV_SD buff sector count ( disk_initialize bsp pdrv d).2).1 =
        DRESULT.RES_OK ↔
      (bsp.BSP_SD_WriteBlocks ( disk_initialize bsp pdrv d).2.dev buff (u32 sector) count
        10000).1 = MSD_OK) := by
  refine ⟨?_, ?_, ?_, ?_⟩
  · intro h
    subst h
    by_cases hi : (bsp.BSP_SD_Init d.dev).1 = MSD_OK <;>
      simp [ disk_initialize, hi, STA_NOINIT]
  · intro h
    simp [ disk_initialize, disk_status, h]
  · simp only [disk_read, if_true]
    split <;> simp_all
  · simp only [disk_write, if_true]
    split <;> simp_all

/-- Witness of the amended C9: a bring-up that succeeds, one that fails, and
drive 1. -/
theorem disk_initialize_result_witness :
    ( disk_initialize ramCard 0 card4).1 = 0 ∧
    ( disk_initialize ramCard 0 card4_init_fails).1 = STA_NOINIT ∧
    ( disk_initialize ramCard 1 card4).1 = STA_NOINIT ∧
    ( disk_initialize ramCard 1 card4).2.calls = [] :=
  have h := disk_initialize_result ramCard 0 card4 [] 0 1
  have hf := disk_initialize_result ramCard 0 card4_init_fails [] 0 1
  have h1 := disk_initialize_result ramCard 1 card4 [] 0 1
  ⟨(h.1 rfl).2.2.1.2 (by decide), (hf.1 rfl).2.2.2.2 (by decide), (h1.2.1 (by decide)).1,
    (h1.2.1 (by decide)).2.2.1⟩

/-- C10: `disk_ioctl` returns `RES_OK` exactly when the drive is 0 and the
command is `CTRL_SYNC`, `GET_SECTOR_COUNT`, `GET_SECTOR_SIZE` or
`GET_BLOCK_SIZE`, and `RES_PARERR` in every other case; it never returns
`RES_ERROR`; `CTRL_SYNC` on drive 0 succeeds without a store through the
output buffer and without a driver call. -/
theorem disk_ioctl_result {σ : Type} (bsp : Bsp σ) (pdrv cmd : Nat) (d : Drv σ) :
    ((disk_ioctl bsp pdrv cmd d).res = DRESULT.RES_OK ↔
      (pdrv = DEV_SD ∧ (cmd = CTRL_SYNC ∨ cmd = GET_SECTOR_COUNT ∨ cmd = GET_SECTOR_SIZE ∨
        cmd = GET_BLOCK_SIZE))) ∧
    ((disk_ioctl bsp pdrv cmd d).res = DRESULT.RES_PARERR ↔
      ¬ (pdrv = DEV_SD ∧ (cmd = CTRL_SYNC ∨ cmd = GET_SECTOR_COUNT ∨ cmd = GET_SECTOR_SIZE ∨
        cmd = GET_BLOCK_SIZE))) ∧
    (disk_ioctl bsp pdrv cmd d).res ≠ DRESULT.RES_ERROR ∧
    (disk_ioctl bsp DEV_SD CTRL_SYNC d).res = DRESULT.RES_OK ∧
    (disk_ioctl bsp DEV_SD CTRL_SYNC d).store = none ∧
    (disk_ioctl bsp DEV_SD CTRL_SYNC d).drv.calls = d.calls ∧
    (disk_ioctl bsp DEV_SD CTRL_SYNC d).drv.dev = d.dev := by
  refine ⟨?_, ?_, ?_, ?_, ?_, ?_, ?_⟩
  · unfold disk_ioctl
    split_ifs <;> simp_all
  · unfold disk_ioctl
    split_ifs <;> simp_all
  · unfold disk_ioctl
    split_ifs <;> simp
  · simp [disk_ioctl]
  · simp [disk_ioctl]
  · simp [disk_ioctl]
  · simp [disk_ioctl]

/-- C11, counterexample: a card that reports blocks of 65536 bytes;
`GET_SECTOR_SIZE` succeeds and stores 0. -/
theorem disk_ioctl_sector_size_counterexample :
    (ramCard.BSP_SD_GetCardInfo card_wide.dev).1.LogBlockSize = 65536 ∧
    (disk_ioctl ramCard DEV_SD GET_SECTOR_SIZE card_wide).res = DRESULT.RES_OK ∧
    (disk_ioctl ramCard DEV_SD GET_SECTOR_SIZE card_wide).store = some (IoctlStore.word 0) := by
  decide

/-- C11, amended: on drive 0 `GET_SECTOR_COUNT` stores the logical block count
of the card, `GET_SECTOR_SIZE` stores the logical block size modulo `2 ^ 16`
(the store goes through a `WORD` pointer), which is the block size itself
when it is below 65536, and `GET_BLOCK_SIZE` stores the constant 1; all three
return `RES_OK`. -/
theorem disk_ioctl_store {σ : Type} (bsp : Bsp σ) (d : Drv σ) :
    (disk_ioctl bsp DEV_SD GET_SECTOR_COUNT d).store =
      some (IoctlStore.lba (bsp.BSP_SD_GetCardInfo d.dev).1.LogBlockNbr) ∧
    (disk_ioctl bsp DEV_SD GET_SECTOR_SIZE d).store =
      some (IoctlStore.word ((bsp.BSP_SD_GetCardInfo d.dev).1.LogBlockSize % 2 ^ 16)) ∧
    ((bsp.BSP_SD_GetCardInfo d.dev).1.LogBlockSize < 2 ^ 16 →
      (disk_ioctl bsp DEV_SD GET_SECTOR_SIZE d).store =
        some (IoctlStore.word (bsp.BSP_SD_GetCardInfo d.dev).1.LogBlockSize)) ∧
    (disk_ioctl bsp DEV_SD GET_BLOCK_SIZE d).store = some (IoctlStore.dword 1) ∧
    (disk_ioctl bsp DEV_SD GET_SECTOR_COUNT d).res = DRESULT.RES_OK ∧
    (disk_ioctl bsp DEV_SD GET_SECTOR_SIZE d).res = DRESULT.RES_OK ∧
    (disk_ioctl bsp DEV_SD GET_BLOCK_SIZE d).res = DRESULT.RES_OK := by
  refine ⟨?_, ?_, ?_, ?_, ?_, ?_, ?_⟩
  · simp [disk_ioctl, DEV_SD, GET_SECTOR_COUNT, CTRL_SYNC]
  · simp [disk_ioctl, DEV_SD, GET_SECTOR_COUNT, GET_SECTOR_SIZE, CTRL_SYNC]
  · intro h
    have h2 : (bsp.BSP_SD_GetCardInfo d.dev).1.LogBlockSize < 65536 := h
    simp [disk_ioctl, DEV_SD, GET_SECTOR_COUNT, GET_SECTOR_SIZE, CTRL_SYNC, Nat.mod_eq_of_lt h2]
  · simp [disk_ioctl, DEV_SD, GET_SECTOR_COUNT, GET_SECTOR_SIZE, GET_BLOCK_SIZE, CTRL_SYNC]
  · simp [disk_ioctl, DEV_SD, GET_SECTOR_COUNT, CTRL_SYNC]
  · simp [disk_ioctl, DEV_SD, GET_SECTOR_COUNT, GET_SECTOR_SIZE, CTRL_SYNC]
  · simp [disk_ioctl, DEV_SD, GET_SECTOR_COUNT, GET_SECTOR_SIZE, GET_BLOCK_SIZE, CTRL_SYNC]

/-- Witness of the amended C11: the card of four blocks of two bytes. -/
theorem disk_ioctl_store_witness :
    (ramCard.BSP_SD_GetCardInfo card4.dev).1.LogBlockSize < 2 ^ 16 ∧
    (disk_ioctl ramCard DEV_SD GET_SECTOR_SIZE card4).store = some (IoctlStore.word 2) ∧
    (disk_ioctl ramCard DEV_SD GET_SECTOR_COUNT card4).store = some (IoctlStore.lba 4) :=
  ⟨by decide, (disk_ioctl_store ramCard card4).2.2.1 (by decide), (disk_ioctl_store ramCard card4).1⟩

/-- C12, counterexample: a volume of 4194304 clusters of 1024 sectors, all
free, has `clusters * sectors_per_cluster / 2048 = 2097152`, and its report
shows `Total: 0 MB` and `Free: 0 MB`. -/
theorem fs_section_counterexample :
    (fs_big.n_fatent - 2) * fs_big.csize / 2048 = 2097152 ∧
    fs_big.fre_clust * fs_big.csize / 2048 = 2097152 ∧
    (get_sd_card_info [] card_1mib 1 fs_big).info_buffer[9]? = some "Total: 0 MB\n".toList ∧
    (get_sd_card_info [] card_1mib 1 fs_big).info_buffer[10]? = some "Free: 0 MB\n".toList := by
  obtain ⟨_, _, _, h9, h10⟩ := fs_section_get [] card_1mib 1 fs_big (by decide) rfl rfl
  refine ⟨by decide, by decide, ?_, ?_⟩
  · rw [h9]; decide
  · rw [h10]; decide

/-- C12, amended: on a mounted volume whose label and free space queries
succeed (label of at most 23 characters, `n_fatent` at least 2) the file
system section shows `Label: (none)` for an empty label and `Label: <label>`
otherwise, `Total: T MB` with
`T = ((n_fatent - 2) * csize mod 2 ^ 32) / 2048` and `Free: F MB` with
`F = (fre_clust * csize mod 2 ^ 32) / 2048`, the products being `DWORD`
values; `T` and `F` are the quotients of the products themselves whenever
the product is below `2 ^ 32`. -/
theorem fs_section_lines (b : List Text) (c : HAL_SD_CardInfoTypeDef) (m : Nat) (fs : FatFs)
    (hm : m ≠ 0) (hl : fs.getlabel_res = FR_OK) (hf : fs.getfree_res = FR_OK)
    (hlabel : (cstr fs.label).length ≤ 23) (hn : 2 ≤ fs.n_fatent) :
    (get_sd_card_info b c m fs).info_buffer[8]? =
      some (if cstr fs.label = [] then "Label: (none)\n".toList
        else "Label: ".toList ++ cstr fs.label ++ "\n".toList) ∧
    (get_sd_card_info b c m fs).info_buffer[9]? =
      some ("Total: ".toList ++
        Nat.toDigits 10 ((fs.n_fatent - 2) * fs.csize % 2 ^ 32 / 2048) ++ " MB\n".toList) ∧
    (get_sd_card_info b c m fs).info_buffer[10]? =
      some ("Free: ".toList ++
        Nat.toDigits 10 (fs.fre_clust * fs.csize % 2 ^ 32 / 2048) ++ " MB\n".toList) ∧
    ((fs.n_fatent - 2) * fs.csize < 2 ^ 32 →
      (get_sd_card_info b c m fs).info_buffer[9]? =
        some ("Total: ".toList ++
          Nat.toDigits 10 ((fs.n_fatent - 2) * fs.csize / 2048) ++ " MB\n".toList)) ∧
    (fs.fre_clust * fs.csize < 2 ^ 32 →
      (get_sd_card_info b c m fs).info_buffer[10]? =
        some ("Free: ".toList ++
          Nat.toDigits 10 (fs.fre_clust * fs.csize / 2048) ++ " MB\n".toList)) := by
  obtain ⟨_, _, h8, h9, h10⟩ := fs_section_get b c m fs hm hl hf
  have htot : u32 (u32 (fs.n_fatent + 2 ^ 32 - 2) * fs.csize) =
      (fs.n_fatent - 2) * fs.csize % 2 ^ 32 := by
    have e : fs.n_fatent + 2 ^ 32 - 2 = (fs.n_fatent - 2) + 2 ^ 32 := by omega
    simp only [u32, e, Nat.add_mod_right]
    rw [Nat.mul_mod, Nat.mod_mod, ← Nat.mul_mod]
  have h9a : (get_sd_card_info b c m fs).info_buffer[9]? =
      some ("Total: ".toList ++
        Nat.toDigits 10 ((fs.n_fatent - 2) * fs.csize % 2 ^ 32 / 2048) ++ " MB\n".toList) := by
    rw [h9, htot, snprintf_128_lu _ _ _ (by decide), fmt_lu_div]
  have h10a : (get_sd_card_info b c m fs).info_buffer[10]? =
      some ("Free: ".toList ++
        Nat.toDigits 10 (fs.fre_clust * fs.csize % 2 ^ 32 / 2048) ++ " MB\n".toList) := by
    rw [h10]
    simp only [u32]
    rw [snprintf_128_lu _ _ _ (by decide), fmt_lu_div]
  refine ⟨?_, h9a, h10a, ?_, ?_⟩
  · rw [h8]
    by_cases he : cstr fs.label = []
    · simp [he]
    · have he2 : (cstr fs.label).isEmpty = false := by
        cases hc : cstr fs.label with
        | nil => exact absurd hc he
        | cons x xs => rfl
      simp only [he, he2, if_false, Bool.false_eq_true]
      rw [snprintf_of_length_le]
      simp only [List.length_append]
      have e1 : "Label: ".toList.length = 7 := by decide
      have e2 : "\n".toList.length = 1 := by decide
      omega
  · intro h
    rw [h9a, Nat.mod_eq_of_lt h]
  · intro h
    rw [h10a, Nat.mod_eq_of_lt h]

/-- Witness of the amended C12: 4000 clusters of 8 sectors, 1000 of them free. -/
theorem fs_section_lines_witness :
    (get_sd_card_info [] card_1mib 1 fs_two).info_buffer[8]? = some "Label: SDCARD\n".toList ∧
    (get_sd_card_info [] card_1mib 1 fs_two).info_buffer[9]? = some "Total: 15 MB\n".toList ∧
    (get_sd_card_info [] card_1mib 1 fs_two).info_buffer[10]? = some "Free: 3 MB\n".toList :=
  have h := fs_section_lines [] card_1mib 1 fs_two (by decide) rfl rfl (by decide) (by decide)
  ⟨h.1.trans (by decide), (h.2.2.2.1 (by decide)).trans (by decide),
    (h.2.2.2.2 (by decide)).trans (by decide)⟩

/-- C13: on a mounted volume whose `f_opendir` fails with code `r` (an `int`
that is not negative), `list_files` appends the two header strings of the
listing and the line `Error opening directory: <r>` and nothing else, and
calls `f_opendir` only; the report is the card and file system sections
followed by these three strings, without a `f_readdir` call, without an
entry line and without a summary line. -/
theorem opendir_failure_report (b : List Text) (c : HAL_SD_CardInfoTypeDef) (m : Nat)
    (fs : FatFs) (r : Report) (hm : m ≠ 0) (ho : fs.opendir_res ≠ FR_OK)
    (hres : fs.opendir_res < 2 ^ 31) :
    (list_files m fs r).info_buffer =
      r.info_buffer ++ ["\n\nFILES AND DIRECTORIES\n".toList, "=====================\n\n".toList,
        "Error opening directory: ".toList ++ Nat.toDigits 10 fs.opendir_res ++ "\n".toList] ∧
    (list_files m fs r).fs_calls = r.fs_calls ++ [FsCall.f_opendir] ∧
    (get_sd_card_info b c m fs).info_buffer =
      (report_head c m fs).info_buffer ++
        ["\n\nFILES AND DIRECTORIES\n".toList, "=====================\n\n".toList,
          "Error opening directory: ".toList ++ Nat.toDigits 10 fs.opendir_res ++ "\n".toList] ∧
    (get_sd_card_info b c m fs).fs_calls =
      [FsCall.f_getlabel, FsCall.f_getfree, FsCall.f_opendir] ∧
    FsCall.f_readdir ∉ (get_sd_card_info b c m fs).fs_calls ∧
    (∀ s ∈ (get_sd_card_info b c m fs).info_buffer,
      is_file_line s = false ∧ is_dir_line s = false ∧ s.take 2 ≠ "\nT".toList) := by
  have hline : snprintf 256 ("Error opening directory: ".toList ++ fmt_d fs.opendir_res ++
      "\n".toList) =
      "Error opening directory: ".toList ++ Nat.toDigits 10 fs.opendir_res ++ "\n".toList := by
    unfold fmt_d
    apply snprintf_of_length_le
    have h1 := toDigits_length_le fs.opendir_res 10 (by decide)
      (lt_of_lt_of_le hres (by norm_num))
    have e1 : "Error opening directory: ".toList.length = 25 := by decide
    have e2 : "\n".toList.length = 1 := by decide
    simp only [List.length_append]
    omega
  have hlist : ∀ r : Report, list_files m fs r =
      { info_buffer := r.info_buffer ++ ["\n\nFILES AND DIRECTORIES\n".toList,
          "=====================\n\n".toList,
          "Error opening directory: ".toList ++ Nat.toDigits 10 fs.opendir_res ++ "\n".toList],
        fs_calls := r.fs_calls ++ [FsCall.f_opendir], truncated := r.truncated } := by
    intro r
    unfold list_files
    simp only [hm, ho, if_false, ne_eq, not_false_eq_true, if_true, hline]
    simp [strcat, fs_call]
  have hbuf : (get_sd_card_info b c m fs).info_buffer =
      (report_head c m fs).info_buffer ++
        ["\n\nFILES AND DIRECTORIES\n".toList, "=====================\n\n".toList,
          "Error opening directory: ".toList ++ Nat.toDigits 10 fs.opendir_res ++ "\n".toList] := by
    rw [get_sd_card_info_eq, hlist]
  have hcalls : (get_sd_card_info b c m fs).fs_calls =
      [FsCall.f_getlabel, FsCall.f_getfree, FsCall.f_opendir] := by
    rw [get_sd_card_info_eq, hlist]
    simp [report_head, hm]
  refine ⟨by rw [hlist], by rw [hlist], hbuf, hcalls, by rw [hcalls]; decide, ?_⟩
  intro s hs
  rw [hbuf, List.mem_append] at hs
  rcases hs with hs | hs
  · exact ⟨(report_head_no_entry c m fs s hs).1, (report_head_no_entry c m fs s hs).2.1,
      report_head_no_total c m fs s hs⟩
  · simp only [List.mem_cons, List.not_mem_nil, or_false] at hs
    rcases hs with rfl | rfl | rfl <;> simp [is_file_line, is_dir_line]

/-- Witness of C13: a root directory that fails to open with code 5. -/
theorem opendir_failure_report_witness :
    (get_sd_card_info [] card_1mib 1 fs_no_dir).info_buffer.getLast? =
      some "Error opening directory: 5\n".toList ∧
    (get_sd_card_info [] card_1mib 1 fs_no_dir).fs_calls =
      [FsCall.f_getlabel, FsCall.f_getfree, FsCall.f_opendir] :=
  have h := opendir_failure_report [] card_1mib 1 fs_no_dir report_empty (by decide) (by decide)
    (by decide)
  ⟨by rw [h.2.2.1]; simp; decide, h.2.2.2.1⟩

/-- C14: `sd_card_init` returns -1 exactly when `BSP_SD_Init` does not report
`MSD_OK`, and then `f_mount` is not called and `fs_mounted` keeps its value;
otherwise it calls `f_mount` and returns 0, with `fs_mounted` set to 1
exactly when `f_mount` returned `FR_OK` and to 0 otherwise; after a mount
failure the result is 0 and every report built with the flag ends in the
section FILE SYSTEM NOT MOUNTED. -/
theorem sd_card_init_result (fs_mounted sd_state mount_res : Nat) :
    ((sd_card_init fs_mounted sd_state mount_res).1 = -1 ↔ sd_state ≠ MSD_OK) ∧
    ((sd_card_init fs_mounted sd_state mount_res).1 = 0 ↔ sd_state = MSD_OK) ∧
    (sd_state ≠ MSD_OK →
      (sd_card_init fs_mounted sd_state mount_res).2.2 = false ∧
      (sd_card_init fs_mounted sd_state mount_res).2.1 = fs_mounted) ∧
    (sd_state = MSD_OK →
      (sd_card_init fs_mounted sd_state mount_res).2.2 = true ∧
      ((sd_card_init fs_mounted sd_state mount_res).2.1 = 1 ↔ mount_res = FR_OK) ∧
      ((sd_card_init fs_mounted sd_state mount_res).2.1 = 0 ↔ mount_res ≠ FR_OK)) ∧
    (sd_state = MSD_OK → mount_res ≠ FR_OK →
      (sd_card_init fs_mounted sd_state mount_res).1 = 0 ∧
      ∀ (b : List Text) (c : HAL_SD_CardInfoTypeDef) (fs : FatFs),
        (get_sd_card_info b c (sd_card_init fs_mounted sd_state mount_res).2.1 fs).info_buffer =
          card_section c ++ ["\n\nFILE SYSTEM NOT MOUNTED\n".toList,
            "=======================\n".toList, "Unable to read file system.\n".toList,
            "Card may not be formatted with FAT.\n".toList]) := by
  by_cases hs : sd_state = MSD_OK
  · by_cases hm : mount_res = FR_OK
    · simp [sd_card_init, hs, hm]
    · simp only [sd_card_init, hs, hm, ne_eq, not_true_eq_false, if_false, not_false_eq_true]
      refine ⟨by simp, by simp, by simp, by simp, ?_⟩
      intro _ _
      refine ⟨trivial, ?_⟩
      intro b c fs
      rw [get_sd_card_info_eq]
      simp [list_files, report_head, strcat]
  · simp [sd_card_init, hs]

/-- Witness of C14: a failed bring-up, a successful mount, a failed mount. -/
theorem sd_card_init_result_witness :
    (sd_card_init 1 MSD_ERROR FR_OK).1 = -1 ∧ (sd_card_init 1 MSD_ERROR FR_OK).2.1 = 1 ∧
    (sd_card_init 0 MSD_OK FR_OK).1 = 0 ∧ (sd_card_init 0 MSD_OK FR_OK).2.1 = 1 ∧
    (sd_card_init 1 MSD_OK 13).1 = 0 ∧ (sd_card_init 1 MSD_OK 13).2.1 = 0 :=
  ⟨(sd_card_init_result 1 MSD_ERROR FR_OK).1.2 (by decide),
    ((sd_card_init_result 1 MSD_ERROR FR_OK).2.2.1 (by decide)).2,
    (sd_card_init_result 0 MSD_OK FR_OK).2.1.2 rfl,
    ((sd_card_init_result 0 MSD_OK FR_OK).2.2.2.1 rfl).2.1.2 rfl,
    ((sd_card_init_result 1 MSD_OK 13).2.2.2.2 rfl (by decide)).1,
    ((sd_card_init_result 1 MSD_OK 13).2.2.2.1 rfl).2.2.2 (by decide)⟩

/-- C15: on the card in memory (a block device that stores what is written to
it, with a 32 bit sector count), for a range inside the card and data of the
size of the range, `disk_write` on drive 0 succeeds and the `disk_read` of
the range that follows returns the written bytes; and from any state of the
card, reading the range, writing back what was read and reading again
succeed, leave the card as it was and return the same bytes. -/
theorem disk_write_read_round_trip (d : Drv RamCard) (data buff : List Nat)
    (sector count : Nat) (hrange : sector + count ≤ d.dev.nblocks)
    (h32 : d.dev.nblocks < 2 ^ 32) (hdata : data.length = count * d.dev.bsize) :
    (disk_write ramCard DEV_SD data sector count d).1 = DRESULT.RES_OK ∧
    (disk_read ramCard DEV_SD buff sector count
      (disk_write ramCard DEV_SD data sector count d).2).res = DRESULT.RES_OK ∧
    (disk_read ramCard DEV_SD buff sector count
      (disk_write ramCard DEV_SD data sector count d).2).buff = data ∧
    (disk_read ramCard DEV_SD buff sector count d).res = DRESULT.RES_OK ∧
    (disk_write ramCard DEV_SD (disk_read ramCard DEV_SD buff sector count d).buff sector count
      (disk_read ramCard DEV_SD buff sector count d).drv).1 = DRESULT.RES_OK ∧
    (disk_write ramCard DEV_SD (disk_read ramCard DEV_SD buff sector count d).buff sector count
      (disk_read ramCard DEV_SD buff sector count d).drv).2.dev = d.dev ∧
    (disk_read ramCard DEV_SD buff sector count
      (disk_write ramCard DEV_SD (disk_read ramCard DEV_SD buff sector count d).buff sector
        count (disk_read ramCard DEV_SD buff sector count d).drv).2).res = DRESULT.RES_OK ∧
    (disk_read ramCard DEV_SD buff sector count
      (disk_write ramCard DEV_SD (disk_read ramCard DEV_SD buff sector count d).buff sector
        count (disk_read ramCard DEV_SD buff sector count d).drv).2).buff =
      (disk_read ramCard DEV_SD buff sector count d).buff := by
  have hin := ramCard_in_range d.dev sector count hrange
  have hs32 : sector < 2 ^ 32 := by omega
  have hmul : (sector + count) * d.dev.bsize = sector * d.dev.bsize + count * d.dev.bsize :=
    Nat.add_mul _ _ _
  obtain ⟨hw, hwd⟩ := disk_write_ramCard d data sector count hrange h32 hdata
  have hlen : (d.dev.data.take (sector * d.dev.bsize) ++ data ++
      d.dev.data.drop ((sector + count) * d.dev.bsize)).length = d.dev.data.length := by
    rw [hmul]
    exact length_written _ _ _ _ (by omega) hdata
  obtain ⟨hr, hrb, _⟩ := disk_read_ramCard (disk_write ramCard DEV_SD data sector count d).2 buff
    sector count (by rw [hwd]; exact hlen.symm ▸ hin) hs32
  obtain ⟨hr1, hr1b, hr1d⟩ := disk_read_ramCard d buff sector count hin hs32
  have hr1len : (disk_read ramCard DEV_SD buff sector count d).buff.length =
      count * (disk_read ramCard DEV_SD buff sector count d).drv.dev.bsize := by
    rw [hr1b, hr1d, List.length_take, List.length_drop]
    omega
  obtain ⟨hw1, hw1d⟩ := disk_write_ramCard (disk_read ramCard DEV_SD buff sector count d).drv
    (disk_read ramCard DEV_SD buff sector count d).buff sector count
    (by rw [hr1d]; exact hrange) (by rw [hr1d]; exact h32) hr1len
  have hback : (disk_write ramCard DEV_SD (disk_read ramCard DEV_SD buff sector count d).buff
      sector count (disk_read ramCard DEV_SD buff sector count d).drv).2.dev = d.dev := by
    rw [hw1d, hr1d, hr1b, hmul, write_back]
  obtain ⟨hr2, hr2b, _⟩ := disk_read_ramCard
    (disk_write ramCard DEV_SD (disk_read ramCard DEV_SD buff sector count d).buff sector count
      (disk_read ramCard DEV_SD buff sector count d).drv).2 buff sector count
    (by rw [hback]; exact hin) hs32
  refine ⟨hw, hr, ?_, hr1, hw1, hback, hr2, ?_⟩
  · rw [hrb, hwd]
    simp only []
    rw [← hdata]
    exact take_drop_written _ _ _ _ (by
      have : sector * d.dev.bsize ≤ (sector + count) * d.dev.bsize :=
        Nat.mul_le_mul_right _ (Nat.le_add_right _ _)
      omega)
  · rw [hr2b, hback, hr1b]

/-- Witness of C15: four bytes written to blocks 1 and 2 of the four block card. -/
theorem disk_write_read_round_trip_witness :
    (1 + 2 ≤ card4.dev.nblocks ∧ card4.dev.nblocks < 2 ^ 32 ∧
      [9, 9, 9, 9].length = 2 * card4.dev.bsize) ∧
    (disk_read ramCard DEV_SD [] 1 2
      (disk_write ramCard DEV_SD [9, 9, 9, 9] 1 2 card4).2).buff = [9, 9, 9, 9] :=
  ⟨by decide,
    (disk_write_read_round_trip card4 [9, 9, 9, 9] [] 1 2 (by decide) (by decide)
      (by decide)).2.2.1⟩

/-- C16: the report does not depend on what `info_buffer` held before:
`get_sd_card_info` gives the same state and text from any two prior
contents, building again on top of a report gives the same report, and the
report is the one built from an empty buffer. -/
theorem get_sd_card_info_resets_buffer (b1 b2 : List Text) (c : HAL_SD_CardInfoTypeDef)
    (m : Nat) (fs : FatFs) :
    get_sd_card_info b1 c m fs = get_sd_card_info b2 c m fs ∧
    (get_sd_card_info b1 c m fs).text = (get_sd_card_info b2 c m fs).text ∧
    get_sd_card_info (get_sd_card_info b1 c m fs).info_buffer c m fs =
      get_sd_card_info b1 c m fs ∧
    get_sd_card_info b1 c m fs = get_sd_card_info [] c m fs := by
  refine ⟨?_, ?_, ?_, ?_⟩
  · rw [get_sd_card_info_eq, get_sd_card_info_eq]
  · rw [get_sd_card_info_eq, get_sd_card_info_eq]
  · rw [get_sd_card_info_eq, get_sd_card_info_eq]
  · rw [get_sd_card_info_eq, get_sd_card_info_eq]

/-- C17: on a mounted volume whose root directory opens, the report is the
card and file system sections, the two header strings, the lines of the
first `k` entries, then the truncation notice if the loop was left for a full
buffer (`t`), then the summary line. Every entry line starts at a buffer
length of at most `4096 - 300`; the loop is left for a full buffer exactly
when the last appended line took the buffer above `4096 - 300`, and then
`f_readdir` was called `k` times, once for every appended line and never
again. -/
theorem list_files_stops_at_limit (b : List Text) (c : HAL_SD_CardInfoTypeDef) (m : Nat)
    (fs : FatFs) (hm : m ≠ 0) (ho : fs.opendir_res = FR_OK) :
    ∃ (k : Nat) (t : Bool), k ≤ fs.readdir.length ∧
      (get_sd_card_info b c m fs).info_buffer =
        (report_head c m fs).info_buffer ++
          ["\n\nFILES AND DIRECTORIES\n".toList, "=====================\n\n".toList] ++
          entry_lines fs.readdir k ++ (if t then [NOTICE] else []) ++
          [total_text (((fs.readdir.take k).filter (fun a => !is_dir a.2)).length)
            (((fs.readdir.take k).filter (fun a => is_dir a.2)).length)] ∧
      (get_sd_card_info b c m fs).fs_calls =
        [FsCall.f_getlabel, FsCall.f_getfree, FsCall.f_opendir] ++
          List.replicate (if t then k else k + 1) FsCall.f_readdir ++ [FsCall.f_closedir] ∧
      (∀ i, i < k → strlen ((report_head c m fs).info_buffer ++
        ["\n\nFILES AND DIRECTORIES\n".toList, "=====================\n\n".toList] ++
        entry_lines fs.readdir i) ≤ 4096 - 300) ∧
      (t = true ↔ (0 < k ∧ 4096 - 300 < strlen ((report_head c m fs).info_buffer ++
        ["\n\nFILES AND DIRECTORIES\n".toList, "=====================\n\n".toList] ++
        entry_lines fs.readdir k))) ∧
      (get_sd_card_info b c m fs).truncated = t := by
  obtain ⟨k, t, h⟩ := list_files_loop_spec fs.readdir (fs_call (strcat (strcat
    (report_head c m fs) "\n\nFILES AND DIRECTORIES\n".toList)
    "=====================\n\n".toList) FsCall.f_opendir) 0 0
  have hb0 : (fs_call (strcat (strcat (report_head c m fs)
      "\n\nFILES AND DIRECTORIES\n".toList) "=====================\n\n".toList)
      FsCall.f_opendir).info_buffer = (report_head c m fs).info_buffer ++
        ["\n\nFILES AND DIRECTORIES\n".toList, "=====================\n\n".toList] := by
    simp [strcat, fs_call]
  have hf : (List.map Prod.snd (fs.readdir.take k)).countP (fun e => !is_dir e) =
      ((fs.readdir.take k).filter (fun a => !is_dir a.2)).length := by
    rw [List.countP_map, List.countP_eq_length_filter]; rfl
  have hd : (List.map Prod.snd (fs.readdir.take k)).countP is_dir =
      ((fs.readdir.take k).filter (fun a => is_dir a.2)).length := by
    rw [List.countP_map, List.countP_eq_length_filter]; rfl
  have hhead : strlen ((report_head c m fs).info_buffer ++
      ["\n\nFILES AND DIRECTORIES\n".toList, "=====================\n\n".toList]) ≤ 3796 := by
    have h3 := report_head_strlen c m fs
    have e1 : strlen ["\n\nFILES AND DIRECTORIES\n".toList,
      "=====================\n\n".toList] = 47 := by decide
    rw [strlen_append, e1]
    omega
  refine ⟨k, t, h.le, ?_, ?_, ?_, ?_, ?_⟩
  · rw [get_sd_card_info_eq, list_files_mounted m fs _ hm ho]
    simp only [strcat, fs_call] at h ⊢
    rw [h.buffer, h.files, h.dirs, hf, hd]
    simp
  · rw [get_sd_card_info_eq, list_files_mounted m fs _ hm ho]
    simp only [strcat, fs_call] at h ⊢
    rw [h.calls]
    simp [report_head, hm]
  · intro i hi
    by_cases hi0 : 0 < i
    · have := h.before i hi0 hi
      rw [hb0] at this
      exact this
    · have : i = 0 := by omega
      subst this
      simpa [entry_lines_zero] using hhead
  · constructor
    · intro ht
      have := h.full ht
      rw [hb0] at this
      exact this
    · intro hk
      by_contra ht
      have ht2 : t = false := by simpa using ht
      have := (h.room ht2).1 hk.1
      rw [hb0] at this
      have := hk.2
      omega
  · rw [get_sd_card_info_eq, list_files_mounted m fs _ hm ho]
    have := h.flag
    simp only [strcat, fs_call] at this ⊢
    rw [this]
    simp [report_head]

/-- Witness of C17: the volume `fs_long`. -/
theorem list_files_stops_at_limit_witness :
    ∃ (k : Nat) (t : Bool), k ≤ fs_long.readdir.length ∧
      (get_sd_card_info [] card_1mib 1 fs_long).fs_calls =
        [FsCall.f_getlabel, FsCall.f_getfree, FsCall.f_opendir] ++
          List.replicate (if t then k else k + 1) FsCall.f_readdir ++ [FsCall.f_closedir] ∧
      (get_sd_card_info [] card_1mib 1 fs_long).truncated = t :=
  match list_files_stops_at_limit [] card_1mib 1 fs_long (by decide) rfl with
  | ⟨k, t, h⟩ => ⟨k, t, h.1, h.2.2.1, h.2.2.2.2.2⟩

/-- C18: when `f_opendir` succeeded, the calls of `list_files` are `f_opendir`,
at least one `f_readdir`, then `f_closedir`: the directory is closed exactly
once, after the last `f_readdir`, as the last call, whatever ended the loop;
when `f_opendir` failed `f_closedir` is not called; when the volume is not
mounted no call is made. -/
theorem list_files_closes_directory (m : Nat) (fs : FatFs) (r : Report) :
    (m ≠ 0 → fs.opendir_res = FR_OK →
      ∃ n, 1 ≤ n ∧
        (list_files m fs r).fs_calls =
          r.fs_calls ++ [FsCall.f_opendir] ++ List.replicate n FsCall.f_readdir ++
            [FsCall.f_closedir] ∧
        ((list_files m fs r).fs_calls.drop r.fs_calls.length).count FsCall.f_closedir = 1 ∧
        ((list_files m fs r).fs_calls.drop r.fs_calls.length).count FsCall.f_opendir = 1 ∧
        (list_files m fs r).fs_calls.getLast? = some FsCall.f_closedir) ∧
    (m ≠ 0 → fs.opendir_res ≠ FR_OK →
      (list_files m fs r).fs_calls = r.fs_calls ++ [FsCall.f_opendir] ∧
      FsCall.f_closedir ∉ (list_files m fs r).fs_calls.drop r.fs_calls.length) ∧
    (m = 0 → (list_files m fs r).fs_calls = r.fs_calls) := by
  refine ⟨?_, ?_, ?_⟩
  · intro hm ho
    obtain ⟨k, t, h⟩ := list_files_loop_spec fs.readdir (fs_call (strcat (strcat r
      "\n\nFILES AND DIRECTORIES\n".toList) "=====================\n\n".toList)
      FsCall.f_opendir) 0 0
    have hc : (list_files m fs r).fs_calls =
        r.fs_calls ++ [FsCall.f_opendir] ++
          List.replicate (if t then k else k + 1) FsCall.f_readdir ++ [FsCall.f_closedir] := by
      rw [list_files_mounted m fs r hm ho]
      simp only [strcat, fs_call] at h ⊢
      rw [h.calls]
    refine ⟨if t then k else k + 1, ?_, hc, ?_, ?_, ?_⟩
    · cases ht : t
      · simp
      · simpa using (h.full ht).1
    · rw [hc]
      simp [List.count_cons, List.count_replicate]
    · rw [hc]
      simp [List.count_cons, List.count_replicate]
    · rw [hc]
      exact List.getLast?_concat _
  · intro hm ho
    have hc : (list_files m fs r).fs_calls = r.fs_calls ++ [FsCall.f_opendir] := by
      simp [list_files, hm, ho, strcat, fs_call]
    refine ⟨hc, ?_⟩
    rw [hc]
    simp
  · intro hm
    simp [list_files, hm, strcat]

/-- Witness of C18: a directory of two entries, and one that does not open. -/
theorem list_files_closes_directory_witness :
    (∃ n, 1 ≤ n ∧
      (list_files 1 fs_two report_empty).fs_calls =
        report_empty.fs_calls ++ [FsCall.f_opendir] ++ List.replicate n FsCall.f_readdir ++
          [FsCall.f_closedir]) ∧
    (list_files 1 fs_no_dir report_empty).fs_calls = [FsCall.f_opendir] :=
  ⟨match (list_files_closes_directory 1 fs_two report_empty).1 (by decide) rfl with
    | ⟨n, h⟩ => ⟨n, h.1, h.2.1⟩,
   ((list_files_closes_directory 1 fs_no_dir report_empty).2.1 (by decide) (by decide)).1⟩

/-- C19: the report built when `f_readdir` fails after the answers `pre` is
the report built when the directory ends after `pre`, string for string and
call for call; when the answers `pre` are entries whose lines keep the buffer
within the limit, it is the sections, the headers, the lines of `pre` and the
summary line, whose two counts add up to the number of entries. -/
theorem readdir_error_is_silent (b : List Text) (c : HAL_SD_CardInfoTypeDef) (m : Nat)
    (fs : FatFs) (pre rest : List (Nat × FILINFO)) (bad : Nat × FILINFO)
    (hbad : bad.1 ≠ FR_OK) :
    get_sd_card_info b c m { fs with readdir := pre ++ bad :: rest } =
      get_sd_card_info b c m { fs with readdir := pre } ∧
    (m ≠ 0 → fs.opendir_res = FR_OK → (∀ a ∈ pre, entry_ok a) →
      strlen ((report_head c m fs).info_buffer ++
        ["\n\nFILES AND DIRECTORIES\n".toList, "=====================\n\n".toList] ++
        pre.map (fun a => entry_text a.2)) ≤ 4096 - 300 →
      (get_sd_card_info b c m { fs with readdir := pre ++ bad :: rest }).info_buffer =
        (report_head c m fs).info_buffer ++
          ["\n\nFILES AND DIRECTORIES\n".toList, "=====================\n\n".toList] ++
          pre.map (fun a => entry_text a.2) ++
          [total_text ((pre.filter (fun a => !is_dir a.2)).length)
            ((pre.filter (fun a => is_dir a.2)).length)] ∧
      (pre.filter (fun a => !is_dir a.2)).length + (pre.filter (fun a => is_dir a.2)).length =
        pre.length) := by
  have hhead : ∀ l, report_head c m { fs with readdir := l } = report_head c m fs := fun _ => rfl
  have heq : get_sd_card_info b c m { fs with readdir := pre ++ bad :: rest } =
      get_sd_card_info b c m { fs with readdir := pre } := by
    rw [get_sd_card_info_eq, get_sd_card_info_eq, hhead (pre ++ bad :: rest), hhead pre]
    unfold list_files
    dsimp only
    rw [list_files_loop_error pre rest bad hbad]
  refine ⟨heq, ?_⟩
  intro hm ho hok hroom
  have hf : (pre.map Prod.snd).countP (fun e => !is_dir e) =
      (pre.filter (fun a => !is_dir a.2)).length := by
    rw [List.countP_map, List.countP_eq_length_filter]; rfl
  have hd : (pre.map Prod.snd).countP is_dir = (pre.filter (fun a => is_dir a.2)).length := by
    rw [List.countP_map, List.countP_eq_length_filter]; rfl
  constructor
  · rw [heq, get_sd_card_info_eq, hhead,
      list_files_mounted m { fs with readdir := pre } _ hm ho]
    simp only []
    rw [list_files_loop_all pre _ 0 0 hok (by simpa [strcat, fs_call] using hroom)]
    simp [strcat, fs_call, hf, hd]
  · rw [← List.countP_eq_length_filter, ← List.countP_eq_length_filter]
    have := List.length_eq_countP_add_countP (p := fun a : Nat × FILINFO => is_dir a.2) pre
    simp only [Bool.not_eq_true] at this
    have e : List.countP (fun a : Nat × FILINFO => !is_dir a.2) pre =
        List.countP (fun a => decide (is_dir a.2 = false)) pre := by
      congr 1
      funext a
      cases is_dir a.2 <;> rfl
    omega

/-- Witness of C19: a disk error after the file `A.TXT`. -/
theorem readdir_error_is_silent_witness :
    read_error.1 ≠ FR_OK ∧
    get_sd_card_info [] card_1mib 1 { fs_two with readdir := [file_a] ++ read_error :: [] } =
      get_sd_card_info [] card_1mib 1 { fs_two with readdir := [file_a] } :=
  ⟨by decide, (readdir_error_is_silent [] card_1mib 1 fs_two [file_a] [] read_error
    (by decide)).1⟩

/-- C20: `disk_read` and `disk_write` behave at a start sector `s` as at
`s mod 2 ^ 32` (same result, same buffer, same device state, same call log);
on drive 0 the call made is the block transfer at `s mod 2 ^ 32` with the
given count and the timeout 10000, and the result is `RES_OK` exactly when it
reports `MSD_OK`. -/
theorem disk_read_write_low_32_bits {σ : Type} (bsp : Bsp σ) (pdrv : Nat) (buff : List Nat)
    (s count : Nat) (d : Drv σ) :
    disk_read bsp pdrv buff s count d = disk_read bsp pdrv buff (s % 2 ^ 32) count d ∧
    disk_write bsp pdrv buff s count d = disk_write bsp pdrv buff (s % 2 ^ 32) count d ∧
    (disk_read bsp DEV_SD buff s count d).drv.calls =
      d.calls ++ [BspCall.ReadBlocks (s % 2 ^ 32) count 10000] ∧
    (disk_write bsp DEV_SD buff s count d).2.calls =
      d.calls ++ [BspCall.WriteBlocks buff (s % 2 ^ 32) count 10000] ∧
    (disk_read bsp DEV_SD buff s count d).res =
      (if (bsp.BSP_SD_ReadBlocks d.dev buff (s % 2 ^ 32) count 10000).1 = MSD_OK
        then DRESULT.RES_OK else DRESULT.RES_ERROR) ∧
    (disk_write bsp DEV_SD buff s count d).1 =
      (if (bsp.BSP_SD_WriteBlocks d.dev buff (s % 2 ^ 32) count 10000).1 = MSD_OK
        then DRESULT.RES_OK else DRESULT.RES_ERROR) := by
  have h : u32 (s % 2 ^ 32) = u32 s := by simp [u32]
  refine ⟨?_, ?_, ?_, ?_, ?_, ?_⟩
  · simp only [disk_read, h]
  · simp only [disk_write, h]
  · simp [disk_read, u32]
  · simp [disk_write, u32]
  · simp [disk_read, u32]
  · simp [disk_write, u32]

end EIT
